import Mathlib

/-!
Verification of the youtube-guardian classification and risk-aggregation
pipeline.  The definitions below are a shallow embedding of the JavaScript
source: src/lib/rating-parser.js (rating taxonomy), src/lib/content-classifier.js
(video risk classifier and batch aggregator), src/lib/channel-analyzer.js
(channel reputation builder and enrichment), src/lib/ai-analyzer.js (AI verdict
merge), and src/lib/report-generator.js.

Modelling conventions:
- JavaScript strings are Lean `String`s; `toLowerCase`/`toUpperCase` are mapped
  character-wise with `Char.toLower`/`Char.toUpper` (the ASCII range, which is
  all the source's tables and messages use).
- A JS value that may be `undefined`/`null` is an `Option`; a text field that
  the source only tests for truthiness is a `String` where the empty string
  plays the role of the missing/empty value (the source treats `''`,
  `null` and `undefined` identically via `if (!text)`).
- `transcript.substring(0, 10000)` operates on UTF-16 code units; transcripts
  are modelled as lists of code units (`List Nat`).
- Floating point: the only float in scope is `madeForKidsRatio < 0.1`, which is
  modelled exactly as the rational comparison `10 * madeForKidsCount <
  videosWatched`; no claim in this development depends on float rounding.
- Database writes and console output are externalized; fallible external calls
  (channel metadata fetch, AI oracle) are injected as function parameters.
-/

/-- Character-wise model of a JS `toLowerCase` call (ASCII range). -/
def jsToLower (s : String) : String :=
  ⟨s.data.map Char.toLower⟩

/-- Character-wise model of a JS `toUpperCase` call (ASCII range). -/
def jsToUpper (s : String) : String :=
  ⟨s.data.map Char.toUpper⟩

/-- Does `needle` occur at the head of `hay`?  (Helper for substring search.) -/
def headMatch : List Char → List Char → Bool
  | _, [] => true
  | [], _ :: _ => false
  | c :: cs, d :: ds => c == d && headMatch cs ds

/-- Does `needle` occur contiguously anywhere in `hay`?  This is the semantics
of JS `String.prototype.includes`. -/
def hasSubList (needle : List Char) : List Char → Bool
  | [] => headMatch [] needle
  | c :: cs => headMatch (c :: cs) needle || hasSubList needle cs

/-- JS `hay.includes(needle)`. -/
def jsIncludes (hay needle : String) : Bool :=
  hasSubList needle.data hay.data

/-- Case-insensitive substring match, the match notion used by `checkKeywords`:
`text.toLowerCase().includes(k.toLowerCase())`. -/
def kwMatch (text k : String) : Bool :=
  jsIncludes (jsToLower text) (jsToLower k)

/-- Embedding of `checkKeywords(text, keywords)` from content-classifier.js:
returns the keywords that case-insensitively occur in `text`; an empty (falsy)
`text` short-circuits to no matches. -/
def checkKeywords (text : String) (keywords : List String) : List String :=
  if text == "" then []
  else keywords.filter (fun k => kwMatch text k)

/-- A parsed content rating, as produced by `parseContentRating` in
rating-parser.js. -/
structure ParsedRating where
  scheme : String
  value : String
  age : Option Nat
  severity : String
  description : String
  deriving DecidableEq, Repr

/-- The MPAA table of `RATING_SCHEMES` in rating-parser.js:
lower-cased rating code to (age, severity, description). -/
def mpaaScheme : String → Option (Option Nat × String × String)
  | "g" => some (some 0, "SAFE", "General Audiences")
  | "pg" => some (some 7, "GUIDANCE", "Parental Guidance Suggested")
  | "pg13" => some (some 13, "TEEN", "Parents Strongly Cautioned")
  | "r" => some (some 17, "MATURE", "Restricted")
  | "nc17" => some (some 18, "ADULT", "Adults Only")
  | "unrated" => some (none, "UNKNOWN", "Unrated")
  | _ => none

/-- The BBFC table of `RATING_SCHEMES` in rating-parser.js. -/
def bbfcScheme : String → Option (Option Nat × String × String)
  | "u" => some (some 0, "SAFE", "Universal")
  | "pg" => some (some 8, "GUIDANCE", "Parental Guidance")
  | "12" => some (some 12, "TEEN", "Suitable for 12 years and over")
  | "12a" => some (some 12, "TEEN", "Suitable for 12 years and over (with adult)")
  | "15" => some (some 15, "TEEN", "Suitable only for 15 years and over")
  | "18" => some (some 18, "ADULT", "Suitable only for adults")
  | "r18" => some (some 18, "ADULT", "Restricted 18")
  | _ => none

/-- The YouTube `contentRating` object as accessed by the source: the
`mpaaRating` and `bbfcRating` fields, plus any other keys present (the
channel analyzer counts all keys via `Object.keys(contentRating).length`). -/
structure ContentRating where
  mpaaRating : Option String
  bbfcRating : Option String
  otherKeys : List String
  deriving DecidableEq, Repr

/-- JS truthiness of an optional string field (`undefined`, `null` and the
empty string are all falsy). -/
def truthyStr : Option String → Bool
  | none => false
  | some s => !(s == "")

/-- Number-of-keys check used by the channel analyzer:
`contentRating && Object.keys(contentRating).length > 0`. -/
def crNonEmpty : Option ContentRating → Bool
  | none => false
  | some cr =>
    !(cr.mpaaRating.isNone && cr.bbfcRating.isNone && cr.otherKeys.isEmpty)

/-- Embedding of `parseContentRating(contentRating)` from rating-parser.js:
extracts the MPAA entry (if its lower-cased code is in the MPAA table), then
the BBFC entry likewise.  An absent or non-object `contentRating` yields `[]`. -/
def parseContentRating (contentRating : Option ContentRating) : List ParsedRating :=
  match contentRating with
  | none => []
  | some cr =>
    let mpaaPart : List ParsedRating :=
      match cr.mpaaRating with
      | some s =>
        if s == "" then []
        else
          match mpaaScheme (jsToLower s) with
          | some (age, sev, desc) =>
            [{ scheme := "MPAA", value := jsToUpper s, age := age,
               severity := sev, description := desc }]
          | none => []
      | none => []
    let bbfcPart : List ParsedRating :=
      match cr.bbfcRating with
      | some s =>
        if s == "" then []
        else
          match bbfcScheme (jsToLower s) with
          | some (age, sev, desc) =>
            [{ scheme := "BBFC", value := jsToUpper s, age := age,
               severity := sev, description := desc }]
          | none => []
      | none => []
    mpaaPart ++ bbfcPart

/-- One step of the `reduce` inside `getMostRestrictiveRating`:
a null-age current keeps the accumulator, a null-age accumulator is replaced,
and otherwise the strictly larger age wins (ties keep the accumulator). -/
def mrStep (highest current : ParsedRating) : ParsedRating :=
  match current.age, highest.age with
  | none, _ => highest
  | some _, none => current
  | some ca, some ha => if ca > ha then current else highest

/-- Embedding of `getMostRestrictiveRating(parsedRatings)` from
rating-parser.js: a JS `reduce` seeded with the first element (which is hence
folded over twice — harmlessly, since `mrStep` is idempotent on it). -/
def getMostRestrictiveRating : List ParsedRating → Option ParsedRating
  | [] => none
  | r :: rs => some ((r :: rs).foldl mrStep r)

/-- Join of two optional ages, treating a null age as neutral: the age that
the most-restrictive selection tracks. -/
def maxAgeStep (acc a : Option Nat) : Option Nat :=
  match a, acc with
  | none, _ => acc
  | some x, none => some x
  | some x, some y => some (max x y)

/-- The highest non-null age occurring in a rating list (none when every age
is null or the list is empty). -/
def ageMax (l : List ParsedRating) : Option Nat :=
  l.foldl (fun acc r => maxAgeStep acc r.age) none

/-- The MPAA NC17 rating as produced by `parseContentRating`. -/
def ratingNC17 : ParsedRating :=
  { scheme := "MPAA", value := "NC17", age := some 18,
    severity := "ADULT", description := "Adults Only" }

/-- The BBFC 18 rating as produced by `parseContentRating`. -/
def ratingBBFC18 : ParsedRating :=
  { scheme := "BBFC", value := "18", age := some 18,
    severity := "ADULT", description := "Suitable only for adults" }

/-- Embedding of `getFlagSeverity(severity)` from rating-parser.js. -/
def getFlagSeverity (severity : String) : String :=
  if severity == "ADULT" then "HIGH"
  else if severity == "MATURE" then "HIGH"
  else if severity == "TEEN" then "MEDIUM"
  else if severity == "GUIDANCE" then "LOW"
  else if severity == "SAFE" then "LOW"
  else if severity == "UNKNOWN" then "MEDIUM"
  else "MEDIUM"

/-- Embedding of `formatRating(rating)` from rating-parser.js (the non-null
input case; the JS `if (!rating)` guard is unreachable from the classifier). -/
def formatRating (r : ParsedRating) : String :=
  match r.age with
  | none => r.scheme ++ " " ++ r.value ++ " (" ++ r.description ++ ")"
  | some a =>
    r.scheme ++ " " ++ r.value ++ " (ages " ++ toString a ++ "+) - " ++ r.description

/-- A video record as consumed by the classifier and the channel analyzer
(the fields the source reads; DB-only fields are omitted). -/
structure Video where
  id : String
  title : String
  description : String
  tags : List String
  channelId : String
  channelTitle : String
  categoryId : String
  contentRating : Option ContentRating
  madeForKids : Option Bool
  selfDeclaredMadeForKids : Option Bool
  viewCount : Nat
  likeCount : Nat
  deriving DecidableEq, Repr

/-- The user-editable blocklist (config/blocklist.json). -/
structure Blocklist where
  keywords : List String
  channels : List String
  categories : List String
  deriving DecidableEq, Repr

/-- A channel reputation profile, restricted to the fields the classifier
reads and the builder's counters feeding them.  `madeForKidsRatio` is the
derived quotient `madeForKidsCount / videosWatched`. -/
structure ChannelProfile where
  channelId : String
  channelTitle : String
  videosWatched : Nat
  totalViews : Nat
  totalLikes : Nat
  madeForKidsCount : Nat
  hasAgeRestriction : Bool
  deriving DecidableEq, Repr

/-- One triggered classification signal. -/
structure Signal where
  flagType : String
  type : String
  severity : String
  message : String
  deriving DecidableEq, Repr

/-- The result record returned by `classifyVideo`. -/
structure ClassificationResult where
  videoId : String
  title : String
  channelTitle : String
  categoryId : String
  categoryName : String
  riskLevel : String
  flags : List Signal
  warnings : List Signal
  info : List Signal
  deriving DecidableEq, Repr

/-- The `CATEGORY_NAMES` lookup table of content-classifier.js. -/
def CATEGORY_NAMES : String → Option String
  | "1" => some "Film & Animation"
  | "2" => some "Autos & Vehicles"
  | "10" => some "Music"
  | "15" => some "Pets & Animals"
  | "17" => some "Sports"
  | "18" => some "Short Movies"
  | "19" => some "Travel & Events"
  | "20" => some "Gaming"
  | "21" => some "Videoblogging"
  | "22" => some "People & Blogs"
  | "23" => some "Comedy"
  | "24" => some "Entertainment"
  | "25" => some "News & Politics"
  | "26" => some "Howto & Style"
  | "27" => some "Education"
  | "28" => some "Science & Technology"
  | "29" => some "Nonprofits & Activism"
  | "30" => some "Movies"
  | "31" => some "Anime/Animation"
  | "32" => some "Action/Adventure"
  | "33" => some "Classics"
  | "34" => some "Comedy"
  | "35" => some "Documentary"
  | "36" => some "Drama"
  | "37" => some "Family"
  | "38" => some "Foreign"
  | "39" => some "Horror"
  | "40" => some "Sci-Fi/Fantasy"
  | "41" => some "Thriller"
  | "42" => some "Shorts"
  | "43" => some "Shows"
  | "44" => some "Trailers"
  | _ => none

/-- Rating-driven flag-tier signal: the ADULT/MATURE branch of the rating loop
in `classifyVideo`. -/
def ratingFlagSignal (r : ParsedRating) : Option Signal :=
  if r.severity == "ADULT" || r.severity == "MATURE" then
    some { flagType := "flags", type := "AGE_RATING_MATURE",
           severity := getFlagSeverity r.severity, message := formatRating r }
  else none

/-- Rating-driven warning-tier signal: the TEEN branch of the rating loop. -/
def ratingWarningSignal (r : ParsedRating) : Option Signal :=
  if r.severity == "TEEN" then
    some { flagType := "warnings", type := "AGE_RATING_TEEN",
           severity := getFlagSeverity r.severity, message := formatRating r }
  else none

/-- Rating-driven info-tier signal: the GUIDANCE branch of the rating loop.
Ratings whose severity is SAFE or UNKNOWN fall through every branch of the
loop and contribute no signal. -/
def ratingInfoSignal (r : ParsedRating) : Option Signal :=
  if r.severity == "GUIDANCE" then
    some { flagType := "info", type := "AGE_RATING_GUIDANCE",
           severity := getFlagSeverity r.severity, message := formatRating r }
  else none

/-- Risk-level derivation, line 110 of content-classifier.js:
`flags.length > 0 ? HIGH : warnings.length > 0 ? MEDIUM : LOW`. -/
def riskLevelOf (flags warnings : List Signal) : String :=
  if flags.length > 0 then "HIGH"
  else if warnings.length > 0 then "MEDIUM"
  else "LOW"

/-- The flag-tier list accumulated by `classifyVideo` (content-classifier.js
lines 41-63 and the ADULT/MATURE branch of the rating loop), in push order. -/
def classifyFlags (video : Video) (blocklist : Blocklist) : List Signal :=
  let titleMatches := checkKeywords video.title blocklist.keywords
  let descMatches := checkKeywords video.description blocklist.keywords
  let tagMatches := checkKeywords (String.intercalate " " video.tags) blocklist.keywords
  (if titleMatches.isEmpty then [] else
    [{ flagType := "flags", type := "BLOCKLIST_TITLE", severity := "HIGH",
       message := "Title: " ++ String.intercalate ", " titleMatches }]) ++
  (if descMatches.isEmpty then [] else
    [{ flagType := "flags", type := "BLOCKLIST_DESCRIPTION", severity := "MEDIUM",
       message := "Description: " ++ String.intercalate ", " descMatches }]) ++
  (if tagMatches.isEmpty then [] else
    [{ flagType := "flags", type := "BLOCKLIST_TAGS", severity := "MEDIUM",
       message := "Tags: " ++ String.intercalate ", " tagMatches }]) ++
  (if blocklist.channels.contains video.channelId then
    [{ flagType := "flags", type := "BLOCKLIST_CHANNEL", severity := "HIGH",
       message := "Channel \"" ++ video.channelTitle ++ "\" is blocked" }]
   else []) ++
  (if blocklist.categories.contains video.categoryId then
    [{ flagType := "flags", type := "BLOCKLIST_CATEGORY", severity := "HIGH",
       message := "Category \"" ++ ((CATEGORY_NAMES video.categoryId).getD video.categoryId)
         ++ "\" is blocked" }]
   else []) ++
  (parseContentRating video.contentRating).filterMap ratingFlagSignal

/-- The warning-tier list accumulated by `classifyVideo` (TEEN branch of the
rating loop, then the channel-reputation warning of line 102), in push order. -/
def classifyWarnings (video : Video) (channelProfile : Option ChannelProfile) :
    List Signal :=
  (parseContentRating video.contentRating).filterMap ratingWarningSignal ++
  (match channelProfile with
   | some p =>
     if p.hasAgeRestriction then
       [{ flagType := "warnings", type := "CHANNEL_HAS_RESTRICTED_CONTENT",
          severity := "MEDIUM", message := "Channel has age-restricted content" }]
     else []
   | none => [])

/-- The info-tier list accumulated by `classifyVideo` (GUIDANCE branch of the
rating loop, made-for-kids mismatch, NOT_FOR_KIDS, channel-not-kid-focused),
in push order. -/
def classifyInfo (video : Video) (channelProfile : Option ChannelProfile) :
    List Signal :=
  (parseContentRating video.contentRating).filterMap ratingInfoSignal ++
  (match video.madeForKids, video.selfDeclaredMadeForKids with
   | some m, some s =>
     if m != s then
       [{ flagType := "info", type := "MADE_FOR_KIDS_MISMATCH", severity := "LOW",
          message := if s == false then
            "Creator declared NOT for kids, but YouTube determined it IS for kids"
          else
            "Creator declared for kids, but YouTube determined it is NOT for kids" }]
     else []
   | _, _ => []) ++
  (if video.madeForKids == some false then
    [{ flagType := "info", type := "NOT_FOR_KIDS", severity := "LOW",
       message := "Not marked for kids" }]
   else []) ++
  (match channelProfile with
   | some p =>
     if 10 * p.madeForKidsCount < p.videosWatched && p.videosWatched > 3 then
       [{ flagType := "info", type := "CHANNEL_NOT_KID_FOCUSED", severity := "LOW",
          message := "Channel rarely posts kid content" }]
     else []
   | none => [])

/-- Embedding of `classifyVideo(video, blocklist, channelProfile)` from
content-classifier.js.  The three signal lists are accumulated in the
source's push order (named above); `getMostRestrictiveRating` is invoked by
the source but its result is unused there, so it is not bound here. -/
def classifyVideo (video : Video) (blocklist : Blocklist)
    (channelProfile : Option ChannelProfile) : ClassificationResult :=
  let flags := classifyFlags video blocklist
  let warnings := classifyWarnings video channelProfile
  let info := classifyInfo video channelProfile
  { videoId := video.id
    title := video.title
    channelTitle := video.channelTitle
    categoryId := video.categoryId
    categoryName := (CATEGORY_NAMES video.categoryId).getD "Unknown"
    riskLevel := riskLevelOf flags warnings
    flags := flags
    warnings := warnings
    info := info }

/-- A video fixture with every field empty or absent. -/
def baseVideo : Video :=
  { id := "v1", title := "", description := "", tags := [],
    channelId := "c1", channelTitle := "Channel One", categoryId := "",
    contentRating := none, madeForKids := none, selfDeclaredMadeForKids := none,
    viewCount := 0, likeCount := 0 }

/-- An empty rule set (the fallback when config/blocklist.json is missing). -/
def emptyBlocklist : Blocklist := ⟨[], [], []⟩

/-- Is a UTF-16 code unit a high (leading) surrogate? -/
def isHighSurrogate (u : Nat) : Bool :=
  55296 ≤ u && u ≤ 56319

/-- Is a UTF-16 code unit a low (trailing) surrogate? -/
def isLowSurrogate (u : Nat) : Bool :=
  56320 ≤ u && u ≤ 57343

/-- Embedding of `transcript.substring(0, 10000)` from ai-analyzer.js line 54
(the truncation applied before the transcript is handed to the AI oracle):
JS `substring` cuts at UTF-16 code-unit index 10000, so the transcript is a
list of code units and the truncation is a plain prefix take. -/
def truncateTranscript (t : List Nat) : List Nat :=
  t.take 10000

/-- First profile lookup in the channel-id-keyed `profiles` object of
`buildChannelProfiles`. -/
def lookupAssoc : List (String × ChannelProfile) → String → Option ChannelProfile
  | [], _ => none
  | e :: t, k => if e.1 == k then some e.2 else lookupAssoc t k

/-- Update of all entries of a channel-id-keyed association list at one key
(keys are unique by construction, so at most one entry changes). -/
def updateAssoc (l : List (String × ChannelProfile)) (k : String)
    (f : ChannelProfile → ChannelProfile) : List (String × ChannelProfile) :=
  l.map (fun e => if e.1 == k then (e.1, f e.2) else e)

/-- The fresh profile created by `buildChannelProfiles` when a channel id is
first seen (channel-analyzer.js lines 32-47, restricted to the tracked
fields). -/
def initProfile (cid title : String) : ChannelProfile :=
  { channelId := cid, channelTitle := title, videosWatched := 0,
    totalViews := 0, totalLikes := 0, madeForKidsCount := 0,
    hasAgeRestriction := false }

/-- The per-video profile update of `buildChannelProfiles` (channel-analyzer.js
lines 49-57): bump counters, and latch `hasAgeRestriction` as soon as one
video has a non-empty contentRating object. -/
def updateProfile (p : ChannelProfile) (v : Video) : ChannelProfile :=
  { p with
    videosWatched := p.videosWatched + 1
    totalViews := p.totalViews + v.viewCount
    totalLikes := p.totalLikes + v.likeCount
    madeForKidsCount := p.madeForKidsCount + (if v.madeForKids = some true then 1 else 0)
    hasAgeRestriction := p.hasAgeRestriction || crNonEmpty v.contentRating }

/-- One iteration of the video loop of `buildChannelProfiles`: create the
profile on first sight of the channel id (object key insertion order is the
append order), then apply the per-video update. -/
def bcpStep (profiles : List (String × ChannelProfile)) (entry : String × Video) :
    List (String × ChannelProfile) :=
  let v := entry.2
  match lookupAssoc profiles v.channelId with
  | some _ => updateAssoc profiles v.channelId (fun p => updateProfile p v)
  | none =>
    profiles ++ [(v.channelId, updateProfile (initProfile v.channelId v.channelTitle) v)]

/-- Embedding of `buildChannelProfiles(videoDetails, watchHistory)` from
channel-analyzer.js, restricted to the counter and flag fields the classifier
consumes (watch-time correlation, category/tag frequency maps and the derived
top-N statistics are not read by any claim).  `videoDetails` is the object's
entry list in key insertion order. -/
def buildChannelProfiles (videoDetails : List (String × Video)) :
    List (String × ChannelProfile) :=
  videoDetails.foldl bcpStep []

/-- The `hasAgeRestriction` flag of the profile stored for a channel id
(false when no profile exists). -/
def optHasAge (l : List (String × ChannelProfile)) (c : String) : Bool :=
  match lookupAssoc l c with
  | some p => p.hasAgeRestriction
  | none => false

/-- The enrichment block built from a successful channel metadata fetch
(channel-analyzer.js lines 103-111). -/
structure EnrichedInfo where
  subscriberCount : Nat
  videoCount : Nat
  viewCount : Nat
  description : String
  publishedAt : String
  fetchedAt : String
  deriving DecidableEq, Repr

/-- Lookup in the on-disk channel cache object (keyed by channel id). -/
def lookupCache : List (String × EnrichedInfo) → String → Option EnrichedInfo
  | [], _ => none
  | e :: t, k => if e.1 == k then some e.2 else lookupCache t k

/-- Externally observable events of `enrichChannelProfiles`: an invocation of
the injected channel metadata fetch, or a write of the cache file to disk. -/
inductive FetchEvent where
  | fetch (channelId : String)
  | writeDisk
  deriving DecidableEq, Repr

/-- Does the event fetch the given channel id? -/
def isFetchOf (cid : String) : FetchEvent → Bool
  | FetchEvent.fetch c => c == cid
  | FetchEvent.writeDisk => false

/-- Is the event a disk write? -/
def isWrite : FetchEvent → Bool
  | FetchEvent.writeDisk => true
  | FetchEvent.fetch _ => false

/-- Number of fetches of a given channel in a trace. -/
def countFetch (t : List FetchEvent) (cid : String) : Nat :=
  t.countP (isFetchOf cid)

/-- The loop of `enrichChannelProfiles` (channel-analyzer.js lines 93-119):
for each profile's channel id in order, skip it when the in-memory cache has
it; otherwise invoke the injected fetch, and on success add the result to the
in-memory cache and bump the counter.  Returns the final cache, the counter
and the fetch-event trace; the per-profile `channelInfo` assignments are not
observable by any claim and are omitted. -/
def enrichLoop (fetchInfo : String → Option EnrichedInfo) :
    List String → List (String × EnrichedInfo) → Nat →
    List (String × EnrichedInfo) × Nat × List FetchEvent
  | [], cache, fetched => (cache, fetched, [])
  | cid :: rest, cache, fetched =>
    match lookupCache cache cid with
    | some _ => enrichLoop fetchInfo rest cache fetched
    | none =>
      match fetchInfo cid with
      | some info =>
        let r := enrichLoop fetchInfo rest (cache ++ [(cid, info)]) (fetched + 1)
        (r.1, r.2.1, FetchEvent.fetch cid :: r.2.2)
      | none =>
        let r := enrichLoop fetchInfo rest cache fetched
        (r.1, r.2.1, FetchEvent.fetch cid :: r.2.2)

/-- The observable trace of one `enrichChannelProfiles` run: all the loop's
fetches, then — only after the loop and only if at least one fetch succeeded —
a single write of the cache file (channel-analyzer.js lines 121-124). -/
def enrichTrace (fetchInfo : String → Option EnrichedInfo)
    (initCache : List (String × EnrichedInfo)) (channels : List String) :
    List FetchEvent :=
  (enrichLoop fetchInfo channels initCache 0).2.2 ++
    (if (enrichLoop fetchInfo channels initCache 0).2.1 > 0 then
      [FetchEvent.writeDisk] else [])

/-- The persistence discipline the spec asserts: after every fetch, a disk
write occurs before the next fetch is issued.  The Boolean state records
whether a fetch is pending un-persisted. -/
def persistedOk : Bool → List FetchEvent → Bool
  | _, [] => true
  | _, FetchEvent.writeDisk :: rest => persistedOk false rest
  | true, FetchEvent.fetch _ :: _ => false
  | false, FetchEvent.fetch _ :: rest => persistedOk true rest

/-- Does a trace persist each fetched result before the next fetch? -/
def persistedBetweenFetches (t : List FetchEvent) : Bool :=
  persistedOk false t

/-- An arbitrary enrichment block for counterexample runs. -/
def defaultInfo : EnrichedInfo :=
  { subscriberCount := 1000, videoCount := 10, viewCount := 99999,
    description := "", publishedAt := "2020-01-01", fetchedAt := "2025-01-01" }

/-- The AI oracle's structured response (ai-analyzer.js system prompt JSON
shape), as returned by `analyzeWithAI`. -/
structure Verdict where
  summary : String
  tags : List String
  riskLevel : String
  reasoning : String
  deriving DecidableEq, Repr

/-- A stored row of the `aiAnalysis` table. -/
structure AIRecord where
  videoId : String
  riskLevel : String
  summary : String
  reasoning : String
  model : String
  deriving DecidableEq, Repr

/-- The database state touched by the AI analyzer: the videos table (read
only), the `aiAnalysis` verdict rows, the tag-name table (ids are list
indices) and the video-tag join rows. -/
structure AiDb where
  videos : List Video
  aiAnalysis : List AIRecord
  tagNames : List String
  videoTags : List (String × Nat)
  deriving DecidableEq, Repr

/-- Insertion-ordered case-preserving de-duplication — the semantics of
`[...new Set(allTagNames.map(t => t.toLowerCase()))]` applied after the map. -/
def dedupFirst (l : List String) : List String :=
  l.foldl (fun acc x => if acc.contains x then acc else acc ++ [x]) []

/-- One get-or-create step of `storeTags`: look the (lower-cased) tag name up
in the tag table, creating it at the next free id when absent, and record the
id. -/
def storeTagsFold (acc : List String × List Nat) (tagName : String) :
    List String × List Nat :=
  match acc.1.findIdx? (fun n => n == tagName) with
  | some i => (acc.1, acc.2 ++ [i])
  | none => (acc.1 ++ [tagName], acc.2 ++ [acc.1.length])

/-- Embedding of `storeTags(videoId, aiTagNames)` from ai-analyzer.js: merge
the video's native tags with the AI tags, lower-case and de-duplicate them,
get-or-create each tag row, and insert the (videoId, tagId) join rows with
`onConflictDoNothing` semantics. -/
def storeTags (db : AiDb) (videoId : String) (aiTagNames : List String) : AiDb :=
  let youtubeTags :=
    ((db.videos.find? (fun v => v.id == videoId)).map (fun v => v.tags)).getD []
  let uniqueTags := dedupFirst ((youtubeTags ++ aiTagNames).map jsToLower)
  let folded := uniqueTags.foldl storeTagsFold (db.tagNames, [])
  let vts := folded.2.foldl
    (fun acc tagId =>
      if acc.contains (videoId, tagId) then acc else acc ++ [(videoId, tagId)])
    db.videoTags
  { db with tagNames := folded.1, videoTags := vts }

/-- Embedding of `analyzeVideo(videoId)` from ai-analyzer.js.  The caption
file parse is the injected `transcriptOf` (null when no captions), and the
whole oracle round-trip — OpenAI call plus `JSON.parse` of its reply — is the
injected fallible `oracle`.  On any failure the database is untouched; on
success the tags are stored and then the verdict row is appended. -/
def analyzeVideo (videoId : String) (transcriptOf : String → Option String)
    (oracle : String → Except String Verdict) (db : AiDb) :
    Except String Verdict × AiDb :=
  match transcriptOf videoId with
  | none => (Except.error "No transcript available", db)
  | some transcript =>
    match oracle transcript with
    | Except.error e => (Except.error e, db)
    | Except.ok result =>
      let db1 := storeTags db videoId result.tags
      (Except.ok result,
        { db1 with aiAnalysis := db1.aiAnalysis ++
            [{ videoId := videoId, riskLevel := result.riskLevel,
               summary := result.summary, reasoning := result.reasoning,
               model := "gpt-4o-mini" }] })

/-- The counters and error list returned by `analyzeAllVideos`. -/
structure BatchResults where
  analyzed : Nat
  failed : Nat
  skipped : Nat
  errors : List (String × String)
  deriving DecidableEq, Repr

/-- The video selection of `analyzeAllVideos`: videos with captions that have
no stored verdict yet, optionally limited (a JS `limit` of null or 0 is
falsy and means no limit). -/
def eligibleVideos (captions : String → Bool) (db : AiDb) : List Video :=
  db.videos.filter
    (fun v => captions v.id
      && !((db.aiAnalysis.map (fun a => a.videoId)).contains v.id))

/-- The optional limit applied on top of the eligible videos (a JS `limit` of
null or 0 is falsy and means no limit). -/
def videosToAnalyze : Option Nat → (String → Bool) → AiDb → List Video
  | none, captions, db => eligibleVideos captions db
  | some n, captions, db =>
    if n == 0 then eligibleVideos captions db
    else (eligibleVideos captions db).take n

/-- One iteration of the batch loop of `analyzeAllVideos`: run the per-video
analysis inside the try/catch — a success bumps `analyzed`, a failure bumps
`failed` and records the per-video error, and the loop continues either way. -/
def analyzeStep (transcriptOf : String → Option String)
    (oracle : String → Except String Verdict)
    (acc : AiDb × BatchResults) (v : Video) : AiDb × BatchResults :=
  let r := analyzeVideo v.id transcriptOf oracle acc.1
  match r.1 with
  | Except.ok _ => (r.2, { acc.2 with analyzed := acc.2.analyzed + 1 })
  | Except.error e =>
    (r.2,
      { acc.2 with
        failed := acc.2.failed + 1
        errors := acc.2.errors ++ [(v.id, e)] })

/-- Embedding of `analyzeAllVideos(limit)` from ai-analyzer.js. -/
def analyzeAllVideos (limit : Option Nat) (captions : String → Bool)
    (transcriptOf : String → Option String)
    (oracle : String → Except String Verdict) (db : AiDb) :
    AiDb × BatchResults :=
  let limited := videosToAnalyze limit captions db
  limited.foldl (analyzeStep transcriptOf oracle)
    (db, { analyzed := 0, failed := 0,
           skipped := db.videos.length - limited.length, errors := [] })

/-- Running per-tier counters of the batch loop (the `summary` object before
`total` is prepended). -/
structure RiskCounts where
  highRisk : Nat
  mediumRisk : Nat
  lowRisk : Nat
  deriving DecidableEq, Repr

/-- The `summary` record returned by `classifyAllVideos`. -/
structure BatchSummary where
  total : Nat
  highRisk : Nat
  mediumRisk : Nat
  lowRisk : Nat
  deriving DecidableEq, Repr

/-- The record returned by `classifyAllVideos`. -/
structure BatchOutput where
  results : List ClassificationResult
  summary : BatchSummary
  blocklist : Blocklist
  deriving DecidableEq, Repr

/-- The summary update of the batch loop:
`summary[riskLevel === HIGH ? highRisk : riskLevel === MEDIUM ? mediumRisk : lowRisk]++`. -/
def bumpCounts (s : RiskCounts) (riskLevel : String) : RiskCounts :=
  if riskLevel == "HIGH" then { s with highRisk := s.highRisk + 1 }
  else if riskLevel == "MEDIUM" then { s with mediumRisk := s.mediumRisk + 1 }
  else { s with lowRisk := s.lowRisk + 1 }

/-- The profile lookup map of `classifyAllVideos`:
`Object.fromEntries(channelProfiles.map(p => [p.channelId, p]))`, in which a
later entry with the same channel id overwrites an earlier one. -/
def channelLookup (profiles : List ChannelProfile) (cid : String) :
    Option ChannelProfile :=
  profiles.foldl (fun acc p => if p.channelId == cid then some p else acc) none

/-- One iteration of the batch loop of `classifyAllVideos`: classify the video
and append the result (the database inserts are externalized). -/
def classifyStep (blocklist : Blocklist) (channelProfiles : List ChannelProfile)
    (acc : List ClassificationResult × RiskCounts) (video : Video) :
    List ClassificationResult × RiskCounts :=
  let result := classifyVideo video blocklist (channelLookup channelProfiles video.channelId)
  (acc.1 ++ [result], bumpCounts acc.2 result.riskLevel)

/-- Embedding of `classifyAllVideos(allVideos, channelProfiles)` from
content-classifier.js; the blocklist (read from disk in the source) is a
parameter, and the database deletes/inserts are externalized.  The loop
appends each result to `results` in input order and bumps the summary. -/
def classifyAllVideos (allVideos : List Video)
    (channelProfiles : List ChannelProfile) (blocklist : Blocklist) : BatchOutput :=
  let folded := allVideos.foldl (classifyStep blocklist channelProfiles) ([], ⟨0, 0, 0⟩)
  { results := folded.1
    summary := { total := folded.1.length, highRisk := folded.2.highRisk,
                 mediumRisk := folded.2.mediumRisk, lowRisk := folded.2.lowRisk }
    blocklist := blocklist }

/-- Rank of a risk level for the ordering the spec asserts
(HIGH above MEDIUM above LOW). -/
def severityRank (s : String) : Nat :=
  if s == "HIGH" then 2 else if s == "MEDIUM" then 1 else 0

/-- Is a list of risk levels weakly ordered from most to least severe? -/
def riskSorted : List String → Bool
  | [] => true
  | [_] => true
  | a :: b :: t => decide (severityRank b ≤ severityRank a) && riskSorted (b :: t)

/-- A harmless video and a keyword-flagged video, for the batch-order claims. -/
def vPlain : Video := { baseVideo with id := "vLow", title := "alpha" }

/-- A video whose title hits the blocklist keyword "bad". -/
def vBlocked : Video := { baseVideo with id := "vHigh", title := "zzz bad zzz" }

/-- A blocklist containing the single keyword "bad". -/
def blBad : Blocklist := ⟨["bad"], [], []⟩

/-- The video of the spec's keyword scenario. -/
def vGraphic : Video := { baseVideo with title := "Graphic Novel Review" }

/-- A video carrying only a SAFE-severity MPAA "G" rating. -/
def vRatedG : Video :=
  { baseVideo with contentRating := some ⟨some "G", none, []⟩ }

/-- The profile built from the single video `vRatedG` (its age-restriction
flag is set, because the contentRating object is non-empty). -/
def pRestricted : ChannelProfile :=
  updateProfile (initProfile "c1" "Channel One") vRatedG

/-- The blocklist of the spec's keyword scenario. -/
def blGraphic : Blocklist := ⟨["graphic"], [], []⟩

/-- Helper: the risk level stored in the result is exactly `riskLevelOf`
applied to the stored flag and warning lists. -/
theorem classify_riskLevel_eq (v : Video) (b : Blocklist) (cp : Option ChannelProfile) :
    (classifyVideo v b cp).riskLevel
      = riskLevelOf (classifyVideo v b cp).flags (classifyVideo v b cp).warnings := rfl

/-- C1: for every video, rule set and channel profile, the risk level of the
ClassificationResult returned by classifyVideo is a pure function of the
signal tiers: HIGH iff the flag-tier list is non-empty, MEDIUM iff no flags
and at least one warning-tier signal, LOW iff both lists are empty (so
info-tier signals alone never raise the level above LOW). -/
theorem classifyVideo_riskLevel_iff_tiers (v : Video) (b : Blocklist)
    (cp : Option ChannelProfile) :
    ((classifyVideo v b cp).riskLevel = "HIGH" ↔ (classifyVideo v b cp).flags ≠ []) ∧
    ((classifyVideo v b cp).riskLevel = "MEDIUM" ↔
      (classifyVideo v b cp).flags = [] ∧ (classifyVideo v b cp).warnings ≠ []) ∧
    ((classifyVideo v b cp).riskLevel = "LOW" ↔
      (classifyVideo v b cp).flags = [] ∧ (classifyVideo v b cp).warnings = []) := by
  rw [classify_riskLevel_eq]
  generalize (classifyVideo v b cp).flags = fs
  generalize (classifyVideo v b cp).warnings = ws
  unfold riskLevelOf
  rcases fs with _ | ⟨f, fs⟩ <;> rcases ws with _ | ⟨w, ws⟩ <;> simp

/-- Helper: projections of the classifier result. -/
theorem classifyVideo_flags (v : Video) (b : Blocklist) (cp : Option ChannelProfile) :
    (classifyVideo v b cp).flags = classifyFlags v b := rfl

/-- Helper: warning-list projection of the classifier result. -/
theorem classifyVideo_warnings (v : Video) (b : Blocklist) (cp : Option ChannelProfile) :
    (classifyVideo v b cp).warnings = classifyWarnings v cp := rfl

/-- Helper: info-list projection of the classifier result. -/
theorem classifyVideo_info (v : Video) (b : Blocklist) (cp : Option ChannelProfile) :
    (classifyVideo v b cp).info = classifyInfo v cp := rfl

/-- C2 counterexample: on the claim's own input — contentRating map
with MPAA entry "PG-13" (hyphenated, as the spec writes it), no blocklist
hits, no other signal source — the classifier emits no signal at all and the
risk level is LOW, not MEDIUM: the rating table's key is the unhyphenated
"pg13", so "PG-13" is silently dropped by `parseContentRating`. -/
theorem classify_pg13_hyphen_refutes_claim :
    parseContentRating (some ⟨some "PG-13", none, []⟩) = [] ∧
    (classifyVideo { baseVideo with contentRating := some ⟨some "PG-13", none, []⟩ }
      emptyBlocklist none).warnings = [] ∧
    (classifyVideo { baseVideo with contentRating := some ⟨some "PG-13", none, []⟩ }
      emptyBlocklist none).riskLevel = "LOW" := by
  refine ⟨rfl, rfl, rfl⟩

/-- C2 amended: with the MPAA value written as the rating table expects it
("PG13", case-insensitively, without a hyphen) and no blocklist hit and no
other signal source, the classifier emits exactly one warning-tier signal —
the AGE_RATING_TEEN signal carrying `getFlagSeverity "TEEN"` for the resolved
TEEN rating — no flag and no info signal, and the risk level is MEDIUM. -/
theorem classify_pg13_teen_warning_medium :
    (classifyVideo { baseVideo with contentRating := some ⟨some "PG13", none, []⟩ }
      emptyBlocklist none).flags = [] ∧
    (classifyVideo { baseVideo with contentRating := some ⟨some "PG13", none, []⟩ }
      emptyBlocklist none).warnings =
      [{ flagType := "warnings", type := "AGE_RATING_TEEN",
         severity := getFlagSeverity "TEEN",
         message := formatRating
           { scheme := "MPAA", value := "PG13", age := some 13,
             severity := "TEEN", description := "Parents Strongly Cautioned" } }] ∧
    (classifyVideo { baseVideo with contentRating := some ⟨some "PG13", none, []⟩ }
      emptyBlocklist none).info = [] ∧
    (classifyVideo { baseVideo with contentRating := some ⟨some "PG13", none, []⟩ }
      emptyBlocklist none).riskLevel = "MEDIUM" := by
  refine ⟨rfl, by decide, rfl, rfl⟩

/-- Helper: membership in an if-then-else whose else branch is nil. -/
theorem mem_of_ite_nil {α : Type} {c : Prop} [Decidable c] {a : α} {l : List α}
    (h : a ∈ (if c then l else [])) : a ∈ l := by
  by_cases hc : c
  · simpa [hc] using h
  · simp [hc] at h

/-- Helper: membership in an if-then-else whose then branch is nil. -/
theorem mem_of_nil_ite {α : Type} {c : Prop} [Decidable c] {a : α} {l : List α}
    (h : a ∈ (if c then [] else l)) : a ∈ l := by
  by_cases hc : c
  · simp [hc] at h
  · simpa [hc] using h

/-- Helper: a rating-derived flag signal is in the classifier's flag list. -/
theorem mem_classifyFlags_of_ratingFlag (v : Video) (b : Blocklist) {s : Signal}
    (h : s ∈ (parseContentRating v.contentRating).filterMap ratingFlagSignal) :
    s ∈ classifyFlags v b := by
  unfold classifyFlags
  exact List.mem_append_right _ h

/-- Helper: a rating-derived warning signal is in the classifier's warning list. -/
theorem mem_classifyWarnings_of_ratingWarning (v : Video) (cp : Option ChannelProfile)
    {s : Signal}
    (h : s ∈ (parseContentRating v.contentRating).filterMap ratingWarningSignal) :
    s ∈ classifyWarnings v cp := by
  unfold classifyWarnings
  exact List.mem_append_left _ h

/-- Helper: a rating-derived info signal is in the classifier's info list. -/
theorem mem_classifyInfo_of_ratingInfo (v : Video) (cp : Option ChannelProfile)
    {s : Signal}
    (h : s ∈ (parseContentRating v.contentRating).filterMap ratingInfoSignal) :
    s ∈ classifyInfo v cp := by
  unfold classifyInfo
  exact List.mem_append_left _ (List.mem_append_left _ (List.mem_append_left _ h))

/-- Helper: every signal in the flag list is one of the five blocklist signal
kinds or comes from the ADULT/MATURE rating branch. -/
theorem mem_classifyFlags_cases (v : Video) (b : Blocklist) {s : Signal}
    (h : s ∈ classifyFlags v b) :
    s.type = "BLOCKLIST_TITLE" ∨ s.type = "BLOCKLIST_DESCRIPTION" ∨
    s.type = "BLOCKLIST_TAGS" ∨ s.type = "BLOCKLIST_CHANNEL" ∨
    s.type = "BLOCKLIST_CATEGORY" ∨
    ∃ r ∈ parseContentRating v.contentRating, ratingFlagSignal r = some s := by
  unfold classifyFlags at h
  rcases List.mem_append.mp h with h | hFM
  · rcases List.mem_append.mp h with h | hCA
    · rcases List.mem_append.mp h with h | hCH
      · rcases List.mem_append.mp h with h | hG
        · rcases List.mem_append.mp h with hT | hD
          · rcases List.mem_singleton.mp (mem_of_nil_ite hT) with rfl
            exact Or.inl rfl
          · rcases List.mem_singleton.mp (mem_of_nil_ite hD) with rfl
            exact Or.inr (Or.inl rfl)
        · rcases List.mem_singleton.mp (mem_of_nil_ite hG) with rfl
          exact Or.inr (Or.inr (Or.inl rfl))
      · rcases List.mem_singleton.mp (mem_of_ite_nil hCH) with rfl
        exact Or.inr (Or.inr (Or.inr (Or.inl rfl)))
    · rcases List.mem_singleton.mp (mem_of_ite_nil hCA) with rfl
      exact Or.inr (Or.inr (Or.inr (Or.inr (Or.inl rfl))))
  · exact Or.inr (Or.inr (Or.inr (Or.inr (Or.inr (List.mem_filterMap.mp hFM)))))

/-- Helper: every signal in the warning list is the channel-reputation warning
or comes from the TEEN rating branch. -/
theorem mem_classifyWarnings_cases (v : Video) (cp : Option ChannelProfile) {s : Signal}
    (h : s ∈ classifyWarnings v cp) :
    s.type = "CHANNEL_HAS_RESTRICTED_CONTENT" ∨
    ∃ r ∈ parseContentRating v.contentRating, ratingWarningSignal r = some s := by
  unfold classifyWarnings at h
  rcases List.mem_append.mp h with h | h
  · exact Or.inr (List.mem_filterMap.mp h)
  · rcases cp with _ | p
    · simp at h
    · rcases List.mem_singleton.mp (mem_of_ite_nil h) with rfl
      exact Or.inl rfl

/-- Helper: every signal in the info list is one of the three non-rating info
kinds or comes from the GUIDANCE rating branch. -/
theorem mem_classifyInfo_cases (v : Video) (cp : Option ChannelProfile) {s : Signal}
    (h : s ∈ classifyInfo v cp) :
    s.type = "MADE_FOR_KIDS_MISMATCH" ∨ s.type = "NOT_FOR_KIDS" ∨
    s.type = "CHANNEL_NOT_KID_FOCUSED" ∨
    ∃ r ∈ parseContentRating v.contentRating, ratingInfoSignal r = some s := by
  unfold classifyInfo at h
  rcases List.mem_append.mp h with h | hCI
  · rcases List.mem_append.mp h with h | hNK
    · rcases List.mem_append.mp h with hFM | hMM
      · exact Or.inr (Or.inr (Or.inr (List.mem_filterMap.mp hFM)))
      · rcases hm : v.madeForKids with _ | m <;>
          rcases hs : v.selfDeclaredMadeForKids with _ | sd <;> rw [hm, hs] at hMM
        · simp at hMM
        · simp at hMM
        · simp at hMM
        · rcases List.mem_singleton.mp (mem_of_ite_nil hMM) with rfl
          exact Or.inl rfl
    · rcases List.mem_singleton.mp (mem_of_ite_nil hNK) with rfl
      exact Or.inr (Or.inl rfl)
  · rcases cp with _ | p
    · simp at hCI
    · rcases List.mem_singleton.mp (mem_of_ite_nil hCI) with rfl
      exact Or.inr (Or.inr (Or.inl rfl))

/-- C3 counterexample: a SAFE-severity rating (MPAA "G") and an
UNKNOWN-severity rating (MPAA "unrated") are both parsed by the taxonomy but
produce no signal whatsoever in the classifier — in particular UNKNOWN yields
silence, not a warning-tier signal, and SAFE yields no info-tier signal. -/
theorem safe_and_unknown_ratings_are_silent :
    (parseContentRating (some ⟨some "G", none, []⟩)).map (fun r => r.severity)
      = ["SAFE"] ∧
    (classifyVideo { baseVideo with contentRating := some ⟨some "G", none, []⟩ }
      emptyBlocklist none).flags = [] ∧
    (classifyVideo { baseVideo with contentRating := some ⟨some "G", none, []⟩ }
      emptyBlocklist none).warnings = [] ∧
    (classifyVideo { baseVideo with contentRating := some ⟨some "G", none, []⟩ }
      emptyBlocklist none).info = [] ∧
    (parseContentRating (some ⟨some "unrated", none, []⟩)).map (fun r => r.severity)
      = ["UNKNOWN"] ∧
    (classifyVideo { baseVideo with contentRating := some ⟨some "unrated", none, []⟩ }
      emptyBlocklist none).flags = [] ∧
    (classifyVideo { baseVideo with contentRating := some ⟨some "unrated", none, []⟩ }
      emptyBlocklist none).warnings = [] ∧
    (classifyVideo { baseVideo with contentRating := some ⟨some "unrated", none, []⟩ }
      emptyBlocklist none).info = [] ∧
    (classifyVideo { baseVideo with contentRating := some ⟨some "unrated", none, []⟩ }
      emptyBlocklist none).riskLevel = "LOW" := by
  refine ⟨rfl, rfl, rfl, rfl, rfl, rfl, rfl, rfl, rfl⟩

/-- C3 amended: for every video whose content-rating map resolves to ratings,
the tier of the emitted signal follows the fixed mapping: ADULT or MATURE
severity yields a flag-tier signal, TEEN yields a warning-tier signal, and
GUIDANCE yields an info-tier signal, each carrying `getFlagSeverity` of the
rating's severity; ratings resolving to SAFE or UNKNOWN severity yield no
signal at all (the classifier's rating loop has no branch for them), so if
every parsed rating is SAFE or UNKNOWN no AGE_RATING signal of any tier is
emitted. -/
theorem rating_severity_tier_mapping (v : Video) (b : Blocklist)
    (cp : Option ChannelProfile) (r : ParsedRating)
    (hr : r ∈ parseContentRating v.contentRating) :
    ((r.severity = "ADULT" ∨ r.severity = "MATURE") →
      ({ flagType := "flags", type := "AGE_RATING_MATURE",
         severity := getFlagSeverity r.severity, message := formatRating r } : Signal)
        ∈ (classifyVideo v b cp).flags) ∧
    (r.severity = "TEEN" →
      ({ flagType := "warnings", type := "AGE_RATING_TEEN",
         severity := getFlagSeverity r.severity, message := formatRating r } : Signal)
        ∈ (classifyVideo v b cp).warnings) ∧
    (r.severity = "GUIDANCE" →
      ({ flagType := "info", type := "AGE_RATING_GUIDANCE",
         severity := getFlagSeverity r.severity, message := formatRating r } : Signal)
        ∈ (classifyVideo v b cp).info) ∧
    ((∀ r2 ∈ parseContentRating v.contentRating,
        r2.severity = "SAFE" ∨ r2.severity = "UNKNOWN") →
      ∀ s : Signal,
        (s ∈ (classifyVideo v b cp).flags ∨ s ∈ (classifyVideo v b cp).warnings ∨
         s ∈ (classifyVideo v b cp).info) →
        s.type ≠ "AGE_RATING_MATURE" ∧ s.type ≠ "AGE_RATING_TEEN" ∧
        s.type ≠ "AGE_RATING_GUIDANCE") := by
  rw [classifyVideo_flags, classifyVideo_warnings, classifyVideo_info]
  refine ⟨?_, ?_, ?_, ?_⟩
  · intro hsev
    refine mem_classifyFlags_of_ratingFlag v b (List.mem_filterMap.mpr ⟨r, hr, ?_⟩)
    rcases hsev with h | h <;> simp [ratingFlagSignal, h]
  · intro hsev
    refine mem_classifyWarnings_of_ratingWarning v cp (List.mem_filterMap.mpr ⟨r, hr, ?_⟩)
    simp [ratingWarningSignal, hsev]
  · intro hsev
    refine mem_classifyInfo_of_ratingInfo v cp (List.mem_filterMap.mpr ⟨r, hr, ?_⟩)
    simp [ratingInfoSignal, hsev]
  · intro hall s hs
    have hnone : ∀ r2 ∈ parseContentRating v.contentRating,
        ratingFlagSignal r2 = none ∧ ratingWarningSignal r2 = none ∧
        ratingInfoSignal r2 = none := by
      intro r2 hr2
      rcases hall r2 hr2 with h | h <;>
        simp [ratingFlagSignal, ratingWarningSignal, ratingInfoSignal, h]
    rcases hs with hs | hs | hs
    · rcases mem_classifyFlags_cases v b hs with h | h | h | h | h | ⟨r2, hr2, heq⟩
      · exact ⟨by simp [h], by simp [h], by simp [h]⟩
      · exact ⟨by simp [h], by simp [h], by simp [h]⟩
      · exact ⟨by simp [h], by simp [h], by simp [h]⟩
      · exact ⟨by simp [h], by simp [h], by simp [h]⟩
      · exact ⟨by simp [h], by simp [h], by simp [h]⟩
      · rw [(hnone r2 hr2).1] at heq; cases heq
    · rcases mem_classifyWarnings_cases v cp hs with h | ⟨r2, hr2, heq⟩
      · exact ⟨by simp [h], by simp [h], by simp [h]⟩
      · rw [(hnone r2 hr2).2.1] at heq; cases heq
    · rcases mem_classifyInfo_cases v cp hs with h | h | h | ⟨r2, hr2, heq⟩
      · exact ⟨by simp [h], by simp [h], by simp [h]⟩
      · exact ⟨by simp [h], by simp [h], by simp [h]⟩
      · exact ⟨by simp [h], by simp [h], by simp [h]⟩
      · rw [(hnone r2 hr2).2.2] at heq; cases heq

/-- C3 witness: at the concrete inputs — video with MPAA "R" (MATURE) for the
flag-tier conjunct, and video with MPAA "unrated" (UNKNOWN) for the silence
conjunct — the amended mapping theorem applies. -/
theorem rating_severity_tier_mapping_witness :
    (({ flagType := "flags", type := "AGE_RATING_MATURE",
        severity := getFlagSeverity "MATURE",
        message := formatRating
          { scheme := "MPAA", value := "R", age := some 17,
            severity := "MATURE", description := "Restricted" } } : Signal)
      ∈ (classifyVideo { baseVideo with contentRating := some ⟨some "R", none, []⟩ }
          emptyBlocklist none).flags) ∧
    (∀ s : Signal,
      (s ∈ (classifyVideo { baseVideo with contentRating := some ⟨some "unrated", none, []⟩ }
              emptyBlocklist none).flags ∨
       s ∈ (classifyVideo { baseVideo with contentRating := some ⟨some "unrated", none, []⟩ }
              emptyBlocklist none).warnings ∨
       s ∈ (classifyVideo { baseVideo with contentRating := some ⟨some "unrated", none, []⟩ }
              emptyBlocklist none).info) →
      s.type ≠ "AGE_RATING_MATURE" ∧ s.type ≠ "AGE_RATING_TEEN" ∧
      s.type ≠ "AGE_RATING_GUIDANCE") :=
  ⟨(rating_severity_tier_mapping
      { baseVideo with contentRating := some ⟨some "R", none, []⟩ }
      emptyBlocklist none
      { scheme := "MPAA", value := "R", age := some 17,
        severity := "MATURE", description := "Restricted" }
      (by decide)).1 (Or.inr rfl),
   (rating_severity_tier_mapping
      { baseVideo with contentRating := some ⟨some "unrated", none, []⟩ }
      emptyBlocklist none
      { scheme := "MPAA", value := "UNRATED", age := none,
        severity := "UNKNOWN", description := "Unrated" }
      (by decide)).2.2.2 (by decide)⟩

/-- Helper: the age tracked by one `mrStep` is the `maxAgeStep` of the ages. -/
theorem mrStep_age (h c : ParsedRating) :
    (mrStep h c).age = maxAgeStep h.age c.age := by
  unfold mrStep maxAgeStep
  rcases hc : c.age with _ | ca <;> rcases hh : h.age with _ | ha <;> simp [hc, hh]
  split
  · next hgt => rw [hc]; exact congrArg some (Nat.max_eq_left (le_of_lt hgt)).symm
  · next hgt => rw [hh]; exact congrArg some (Nat.max_eq_right (Nat.le_of_not_lt hgt)).symm

/-- Helper: the age of a full `mrStep` fold is the fold of `maxAgeStep` over
the ages. -/
theorem foldl_mrStep_age (l : List ParsedRating) :
    ∀ init : ParsedRating,
      (l.foldl mrStep init).age
        = l.foldl (fun acc r => maxAgeStep acc r.age) init.age := by
  induction l with
  | nil => intro init; rfl
  | cons hd tl ih =>
    intro init
    rw [List.foldl_cons, List.foldl_cons, ih, mrStep_age]

/-- Helper: joining an age with itself is the same as injecting it into the
neutral accumulator. -/
theorem maxAgeStep_self (a : Option Nat) : maxAgeStep a a = maxAgeStep none a := by
  cases a <;> simp [maxAgeStep]

/-- Helper: `maxAgeStep` is right-commutative. -/
theorem maxAgeStep_left_comm (b x y : Option Nat) :
    maxAgeStep (maxAgeStep b x) y = maxAgeStep (maxAgeStep b y) x := by
  cases b <;> cases x <;> cases y <;>
    simp [maxAgeStep, Nat.max_comm, Nat.max_left_comm, Nat.max_assoc]

/-- Helper: `maxAgeStep` absorbs an argument it already dominates, even after
further joins. -/
theorem maxAgeStep_absorb (ages : List (Option Nat)) :
    ∀ acc a, maxAgeStep acc a = acc →
      maxAgeStep (ages.foldl maxAgeStep acc) a = ages.foldl maxAgeStep acc := by
  induction ages with
  | nil => intro acc a h; exact h
  | cons hd tl ih =>
    intro acc a h
    rw [List.foldl_cons]
    refine ih _ _ ?_
    rw [maxAgeStep_left_comm, h]

/-- Helper: joining the same age twice changes nothing. -/
theorem maxAgeStep_absorb_self (acc a : Option Nat) :
    maxAgeStep (maxAgeStep acc a) a = maxAgeStep acc a := by
  cases acc <;> cases a <;> simp [maxAgeStep, Nat.max_assoc]

/-- Helper: the `maxAgeStep` fold dominates every member of the list. -/
theorem foldl_maxAgeStep_ub (ages : List (Option Nat)) :
    ∀ acc a, a ∈ ages →
      maxAgeStep (ages.foldl maxAgeStep acc) a = ages.foldl maxAgeStep acc := by
  induction ages with
  | nil => intro acc a h; cases h
  | cons hd tl ih =>
    intro acc a h
    rcases List.mem_cons.mp h with rfl | h
    · rw [List.foldl_cons]
      exact maxAgeStep_absorb tl _ _ (maxAgeStep_absorb_self acc a)
    · rw [List.foldl_cons]
      exact ih _ _ h

/-- Helper: on a non-empty list the selected rating's age is `ageMax`. -/
theorem mostRestrictive_age_some (r0 : ParsedRating) (rs : List ParsedRating) :
    ((getMostRestrictiveRating (r0 :: rs)).map fun x => x.age)
      = some (ageMax (r0 :: rs)) := by
  show some ((r0 :: rs).foldl mrStep r0).age = some (ageMax (r0 :: rs))
  rw [foldl_mrStep_age]
  unfold ageMax
  rw [List.foldl_cons, List.foldl_cons, maxAgeStep_self]

/-- Helper: `ageMax` is invariant under permutation. -/
theorem ageMax_perm {l l2 : List ParsedRating} (hp : l.Perm l2) :
    ageMax l = ageMax l2 :=
  List.Perm.foldl_eq' hp
    (fun x _ y _ z => maxAgeStep_left_comm z x.age y.age) none

/-- Helper: `mrStep` returns one of its two arguments. -/
theorem mrStep_eq_or (h c : ParsedRating) : mrStep h c = h ∨ mrStep h c = c := by
  unfold mrStep
  rcases hc : c.age with _ | ca <;> rcases hh : h.age with _ | ha <;> simp [hc, hh]
  by_cases hlt : ha < ca
  · exact Or.inr (fun hle => (by omega : False).elim)
  · exact Or.inl (fun h2 => (by omega : False).elim)

/-- Helper: an `mrStep` fold lands on the seed or on a list member. -/
theorem foldl_mrStep_mem (l : List ParsedRating) :
    ∀ init : ParsedRating, l.foldl mrStep init = init ∨ l.foldl mrStep init ∈ l := by
  induction l with
  | nil => intro init; exact Or.inl rfl
  | cons hd tl ih =>
    intro init
    rw [List.foldl_cons]
    rcases ih (mrStep init hd) with h | h
    · rcases mrStep_eq_or init hd with h2 | h2
      · exact Or.inl (h.trans h2)
      · exact Or.inr (List.mem_cons.mpr (Or.inl (h.trans h2)))
    · exact Or.inr (List.mem_cons.mpr (Or.inr h))

/-- C5 counterexample: two parsed ratings with the same non-null age 18
(exactly what a contentRating of MPAA NC17 plus BBFC 18 parses to) are a
permutation of each other in either order, yet `getMostRestrictiveRating`
returns the first-encountered entry in each order — distinct results, so
reordering does change the result even though not all ages are null. -/
theorem mostRestrictive_tie_depends_on_order :
    parseContentRating (some ⟨some "NC17", some "18", []⟩)
      = [ratingNC17, ratingBBFC18] ∧
    List.Perm [ratingNC17, ratingBBFC18] [ratingBBFC18, ratingNC17] ∧
    ratingNC17.age = some 18 ∧ ratingBBFC18.age = some 18 ∧
    ratingNC17 ≠ ratingBBFC18 ∧
    getMostRestrictiveRating [ratingNC17, ratingBBFC18] = some ratingNC17 ∧
    getMostRestrictiveRating [ratingBBFC18, ratingNC17] = some ratingBBFC18 := by
  refine ⟨rfl, List.Perm.swap ratingBBFC18 ratingNC17 [], rfl, rfl, by decide, rfl, rfl⟩

/-- C5 amended: `getMostRestrictiveRating` always selects an entry of the
input list whose age is the highest non-null minimum age (`ageMax`), and the
selected AGE is invariant under any permutation of the entries; but the
specific entry returned is only determined up to ties — when several entries
share the highest non-null age (and in the all-null case) the
first-encountered one is returned, so reordering tied entries may change
which rating object comes back. -/
theorem mostRestrictive_age_perm_invariant (l l2 : List ParsedRating)
    (hp : l.Perm l2) (hne : l ≠ []) :
    ((getMostRestrictiveRating l).map fun r => r.age)
      = ((getMostRestrictiveRating l2).map fun r => r.age) ∧
    (∃ m, getMostRestrictiveRating l = some m ∧ m ∈ l ∧ m.age = ageMax l ∧
      ∀ r2 ∈ l, maxAgeStep m.age r2.age = m.age) := by
  have hne2 : l2 ≠ [] := by
    intro h; rw [h] at hp; exact hne (List.Perm.eq_nil hp)
  rcases l with _ | ⟨r0, rs⟩
  · exact absurd rfl hne
  rcases l2 with _ | ⟨s0, ss⟩
  · exact absurd rfl hne2
  constructor
  · rw [mostRestrictive_age_some r0 rs, mostRestrictive_age_some s0 ss,
      ageMax_perm hp]
  · refine ⟨(r0 :: rs).foldl mrStep r0, rfl, ?_, ?_, ?_⟩
    · rcases foldl_mrStep_mem (r0 :: rs) r0 with h | h
      · rw [h]; exact List.mem_cons_self r0 rs
      · exact h
    · have := mostRestrictive_age_some r0 rs
      simpa [getMostRestrictiveRating] using this
    · intro r2 hr2
      have hage : ((r0 :: rs).foldl mrStep r0).age = ageMax (r0 :: rs) := by
        have := mostRestrictive_age_some r0 rs
        simpa [getMostRestrictiveRating] using this
      rw [hage]
      unfold ageMax
      rw [← List.foldl_map (fun r : ParsedRating => r.age) maxAgeStep]
      exact foldl_maxAgeStep_ub _ none r2.age
        (List.mem_map.mpr ⟨r2, hr2, rfl⟩)

/-- C5 witness: the amended theorem applied to the concrete tied-age pair in
its two orders. -/
theorem mostRestrictive_age_perm_invariant_witness :
    (((getMostRestrictiveRating [ratingNC17, ratingBBFC18]).map fun r => r.age)
      = ((getMostRestrictiveRating [ratingBBFC18, ratingNC17]).map fun r => r.age)) ∧
    (∃ m, getMostRestrictiveRating [ratingNC17, ratingBBFC18] = some m ∧
      m ∈ [ratingNC17, ratingBBFC18] ∧ m.age = ageMax [ratingNC17, ratingBBFC18] ∧
      ∀ r2 ∈ [ratingNC17, ratingBBFC18], maxAgeStep m.age r2.age = m.age) :=
  mostRestrictive_age_perm_invariant [ratingNC17, ratingBBFC18]
    [ratingBBFC18, ratingNC17]
    (List.Perm.swap ratingBBFC18 ratingNC17 []) (by decide)

/-- Helper: the results component of the batch fold is the accumulated prefix
followed by the per-video classifications in input order. -/
theorem foldl_classifyStep_results (bl : Blocklist) (ps : List ChannelProfile) :
    ∀ (vs : List Video) (acc : List ClassificationResult × RiskCounts),
      (vs.foldl (classifyStep bl ps) acc).1
        = acc.1 ++ vs.map (fun v => classifyVideo v bl (channelLookup ps v.channelId)) := by
  intro vs
  induction vs with
  | nil => intro acc; simp
  | cons hd tl ih =>
    intro acc
    rw [List.foldl_cons, ih]
    simp [classifyStep]

/-- C4 counterexample: with a LOW-risk video first and a HIGH-risk video
second, the batch aggregator's output keeps them in that order — the strictly
more severe result appears after the less severe one, so the output is not
sorted by risk level. -/
theorem batch_output_not_sorted_by_risk :
    ((classifyAllVideos [vPlain, vBlocked] [] blBad).results.map fun r => r.riskLevel)
      = ["LOW", "HIGH"] ∧
    riskSorted
      ((classifyAllVideos [vPlain, vBlocked] [] blBad).results.map fun r => r.riskLevel)
      = false := by
  refine ⟨rfl, rfl⟩

/-- C4 amended: the batch aggregator performs no sorting at all — its results
list is exactly the per-video classifications in the original input order
(the i-th result classifies the i-th input video); any risk-level ordering is
left to the reporting layer. -/
theorem classifyAllVideos_preserves_input_order (vs : List Video)
    (ps : List ChannelProfile) (bl : Blocklist) :
    (classifyAllVideos vs ps bl).results
      = vs.map (fun v => classifyVideo v bl (channelLookup ps v.channelId)) := by
  show (vs.foldl (classifyStep bl ps) ([], ⟨0, 0, 0⟩)).1
      = vs.map (fun v => classifyVideo v bl (channelLookup ps v.channelId))
  rw [foldl_classifyStep_results]
  rfl

/-- Helper: a flag membership forces riskLevel HIGH. -/
theorem classify_riskLevel_high_of_mem {v : Video} {bl : Blocklist}
    {cp : Option ChannelProfile} {s : Signal} (h : s ∈ classifyFlags v bl) :
    (classifyVideo v bl cp).riskLevel = "HIGH" := by
  rw [classify_riskLevel_eq, classifyVideo_flags]
  unfold riskLevelOf
  rw [if_pos (List.length_pos.mpr (List.ne_nil_of_mem h))]

/-- Helper: a non-empty title match list puts the BLOCKLIST_TITLE signal in
the flag list. -/
theorem mem_classifyFlags_title (v : Video) (bl : Blocklist)
    (hne : (checkKeywords v.title bl.keywords).isEmpty = false) :
    ({ flagType := "flags", type := "BLOCKLIST_TITLE", severity := "HIGH",
       message := "Title: " ++ String.intercalate ", " (checkKeywords v.title bl.keywords) }
        : Signal) ∈ classifyFlags v bl := by
  unfold classifyFlags
  refine List.mem_append_left _ (List.mem_append_left _ (List.mem_append_left _
    (List.mem_append_left _ (List.mem_append_left _ ?_))))
  simp [hne]

/-- Helper: a non-empty description match list puts the BLOCKLIST_DESCRIPTION
signal in the flag list. -/
theorem mem_classifyFlags_desc (v : Video) (bl : Blocklist)
    (hne : (checkKeywords v.description bl.keywords).isEmpty = false) :
    ({ flagType := "flags", type := "BLOCKLIST_DESCRIPTION", severity := "MEDIUM",
       message := "Description: "
         ++ String.intercalate ", " (checkKeywords v.description bl.keywords) }
        : Signal) ∈ classifyFlags v bl := by
  unfold classifyFlags
  refine List.mem_append_left _ (List.mem_append_left _ (List.mem_append_left _
    (List.mem_append_left _ (List.mem_append_right _ ?_))))
  simp [hne]

/-- Helper: a non-empty tag match list puts the BLOCKLIST_TAGS signal in the
flag list. -/
theorem mem_classifyFlags_tags (v : Video) (bl : Blocklist)
    (hne : (checkKeywords (String.intercalate " " v.tags) bl.keywords).isEmpty = false) :
    ({ flagType := "flags", type := "BLOCKLIST_TAGS", severity := "MEDIUM",
       message := "Tags: "
         ++ String.intercalate ", " (checkKeywords (String.intercalate " " v.tags) bl.keywords) }
        : Signal) ∈ classifyFlags v bl := by
  unfold classifyFlags
  refine List.mem_append_left _ (List.mem_append_left _ (List.mem_append_left _
    (List.mem_append_right _ ?_)))
  simp [hne]

/-- Helper: a matching keyword makes checkKeywords non-empty when the text is
non-empty. -/
theorem checkKeywords_not_isEmpty {text k : String} {keywords : List String}
    (htne : text ≠ "") (hk : k ∈ keywords) (hm : kwMatch text k = true) :
    (checkKeywords text keywords).isEmpty = false := by
  have hkmem : k ∈ checkKeywords text keywords := by
    unfold checkKeywords
    rw [if_neg (by simpa using htne)]
    exact List.mem_filter.mpr ⟨hk, hm⟩
  cases hcc : checkKeywords text keywords with
  | nil => rw [hcc] at hkmem; cases hkmem
  | cons a t => rfl

/-- C6 counterexample: the empty keyword is a case-insensitive substring of
the empty title, yet the classifier emits no flag at all and classifies LOW —
`checkKeywords` skips empty (falsy) text fields before matching, so a match
in an empty field produces no signal. -/
theorem empty_text_match_produces_no_flag :
    kwMatch "" "" = true ∧
    ("" : String) ∈ (⟨[""], [], []⟩ : Blocklist).keywords ∧
    (classifyVideo baseVideo ⟨[""], [], []⟩ none).flags = [] ∧
    (classifyVideo baseVideo ⟨[""], [], []⟩ none).riskLevel = "LOW" := by
  refine ⟨rfl, List.mem_singleton.mpr rfl, rfl, rfl⟩

/-- C6 amended: for every video and blocklist keyword, a case-insensitive
substring match of the keyword in the title, the description, or the joined
tag text each produces a flag-tier signal — provided the matched text field
is non-empty (the classifier skips empty text fields entirely, so an empty
keyword matching an empty field yields nothing).  Description and tag matches
carry a MEDIUM severity label but are still pushed to the flag list, so any
such hit forces riskLevel HIGH.  In particular, with keyword "graphic" and
title "Graphic Novel Review", a flag-tier BLOCKLIST_TITLE signal whose
message contains "graphic" is emitted and the risk level is HIGH. -/
theorem keyword_match_forces_high (v : Video) (bl : Blocklist)
    (cp : Option ChannelProfile) (k : String) (hk : k ∈ bl.keywords) :
    (v.title ≠ "" → kwMatch v.title k = true →
      (∃ s ∈ (classifyVideo v bl cp).flags,
        s.flagType = "flags" ∧ s.type = "BLOCKLIST_TITLE" ∧ s.severity = "HIGH") ∧
      (classifyVideo v bl cp).riskLevel = "HIGH") ∧
    (v.description ≠ "" → kwMatch v.description k = true →
      (∃ s ∈ (classifyVideo v bl cp).flags,
        s.flagType = "flags" ∧ s.type = "BLOCKLIST_DESCRIPTION" ∧ s.severity = "MEDIUM") ∧
      (classifyVideo v bl cp).riskLevel = "HIGH") ∧
    (String.intercalate " " v.tags ≠ "" →
      kwMatch (String.intercalate " " v.tags) k = true →
      (∃ s ∈ (classifyVideo v bl cp).flags,
        s.flagType = "flags" ∧ s.type = "BLOCKLIST_TAGS" ∧ s.severity = "MEDIUM") ∧
      (classifyVideo v bl cp).riskLevel = "HIGH") ∧
    ((∃ s ∈ (classifyVideo vGraphic blGraphic none).flags,
        s.flagType = "flags" ∧ s.type = "BLOCKLIST_TITLE" ∧
        jsIncludes s.message "graphic" = true) ∧
      (classifyVideo vGraphic blGraphic none).riskLevel = "HIGH") := by
  refine ⟨?_, ?_, ?_, ?_⟩
  · intro htne hm
    have hne := checkKeywords_not_isEmpty htne hk hm
    have hmem := mem_classifyFlags_title v bl hne
    exact ⟨⟨_, by rw [classifyVideo_flags]; exact hmem, rfl, rfl, rfl⟩,
      classify_riskLevel_high_of_mem hmem⟩
  · intro htne hm
    have hne := checkKeywords_not_isEmpty htne hk hm
    have hmem := mem_classifyFlags_desc v bl hne
    exact ⟨⟨_, by rw [classifyVideo_flags]; exact hmem, rfl, rfl, rfl⟩,
      classify_riskLevel_high_of_mem hmem⟩
  · intro htne hm
    have hne := checkKeywords_not_isEmpty htne hk hm
    have hmem := mem_classifyFlags_tags v bl hne
    exact ⟨⟨_, by rw [classifyVideo_flags]; exact hmem, rfl, rfl, rfl⟩,
      classify_riskLevel_high_of_mem hmem⟩
  · exact ⟨by decide, by decide⟩

/-- C6 witness: the amended theorem applied at the spec's own scenario —
keyword "graphic", title "Graphic Novel Review". -/
theorem keyword_match_forces_high_witness :
    (∃ s ∈ (classifyVideo vGraphic blGraphic none).flags,
      s.flagType = "flags" ∧ s.type = "BLOCKLIST_TITLE" ∧ s.severity = "HIGH") ∧
    (classifyVideo vGraphic blGraphic none).riskLevel = "HIGH" :=
  (keyword_match_forces_high vGraphic blGraphic none "graphic"
    (by decide)).1 (by decide) (by decide)

/-- Helper: updating an association list at a key maps the value found there. -/
theorem lookupAssoc_updateAssoc_self (l : List (String × ChannelProfile))
    (k : String) (f : ChannelProfile → ChannelProfile) :
    lookupAssoc (updateAssoc l k f) k = (lookupAssoc l k).map f := by
  induction l with
  | nil => rfl
  | cons hd tl ih =>
    by_cases hh : hd.1 = k
    · simp [lookupAssoc, updateAssoc, hh]
    · simp [lookupAssoc, updateAssoc, hh]
      simpa [updateAssoc] using ih

/-- Helper: updating an association list at one key leaves lookups at other
keys unchanged. -/
theorem lookupAssoc_updateAssoc_ne (l : List (String × ChannelProfile))
    (k k2 : String) (f : ChannelProfile → ChannelProfile) (hne : k2 ≠ k) :
    lookupAssoc (updateAssoc l k f) k2 = lookupAssoc l k2 := by
  induction l with
  | nil => rfl
  | cons hd tl ih =>
    by_cases hh2 : hd.1 = k2
    · have hh : ¬ hd.1 = k := by rw [hh2]; exact hne
      simp [lookupAssoc, updateAssoc, hh, hh2, hne]
    · by_cases hh : hd.1 = k
      · simp [lookupAssoc, updateAssoc, hh, hh2, Ne.symm hne]
        simpa [updateAssoc] using ih
      · simp [lookupAssoc, updateAssoc, hh, hh2]
        simpa [updateAssoc] using ih

/-- Helper: lookup across an appended association list. -/
theorem lookupAssoc_append (l l2 : List (String × ChannelProfile)) (k : String) :
    lookupAssoc (l ++ l2) k
      = match lookupAssoc l k with
        | some p => some p
        | none => lookupAssoc l2 k := by
  induction l with
  | nil => rfl
  | cons hd tl ih =>
    by_cases hh : hd.1 = k
    · simp [lookupAssoc, hh]
    · simp [lookupAssoc, hh]
      exact ih

/-- Helper: one `bcpStep` ORs into the channel's flag exactly the
non-emptiness of the processed video's contentRating (when the channel ids
match), and leaves every other channel's flag alone. -/
theorem optHasAge_bcpStep (init : List (String × ChannelProfile))
    (e : String × Video) (c : String) :
    optHasAge (bcpStep init e) c
      = (optHasAge init c || (e.2.channelId == c && crNonEmpty e.2.contentRating)) := by
  unfold bcpStep
  cases hl : lookupAssoc init e.2.channelId with
  | some p =>
    simp only [hl]
    by_cases hc : e.2.channelId = c
    · unfold optHasAge
      rw [hc] at hl
      rw [hc, lookupAssoc_updateAssoc_self, hl]
      simp [updateProfile]
    · unfold optHasAge
      rw [lookupAssoc_updateAssoc_ne _ _ _ _ (fun h => hc h.symm)]
      simp [hc]
  | none =>
    simp only [hl]
    by_cases hc : e.2.channelId = c
    · unfold optHasAge
      rw [hc] at hl
      rw [hc, lookupAssoc_append, hl]
      simp [lookupAssoc, updateProfile, initProfile]
    · unfold optHasAge
      rw [lookupAssoc_append]
      cases h2 : lookupAssoc init c <;> simp [h2, lookupAssoc, hc]

/-- Helper: the latch equation extended over a whole fold of `bcpStep`. -/
theorem optHasAge_foldl (vds : List (String × Video)) :
    ∀ (init : List (String × ChannelProfile)) (c : String),
      optHasAge (vds.foldl bcpStep init) c
        = (optHasAge init c
            || vds.any (fun e => e.2.channelId == c && crNonEmpty e.2.contentRating)) := by
  induction vds with
  | nil => intro init c; simp
  | cons hd tl ih =>
    intro init c
    rw [List.foldl_cons, ih, optHasAge_bcpStep]
    simp [Bool.or_assoc]

/-- Helper: a restricted channel profile puts the channel-reputation warning
in the warning list. -/
theorem mem_classifyWarnings_channel (v : Video) (p : ChannelProfile)
    (hp : p.hasAgeRestriction = true) :
    ({ flagType := "warnings", type := "CHANNEL_HAS_RESTRICTED_CONTENT",
       severity := "MEDIUM", message := "Channel has age-restricted content" }
        : Signal) ∈ classifyWarnings v (some p) := by
  unfold classifyWarnings
  refine List.mem_append_right _ ?_
  simp [hp]

/-- Helper: a non-empty warning list rules out risk level LOW. -/
theorem riskLevelOf_ne_low {fs ws : List Signal} (h : ws ≠ []) :
    riskLevelOf fs ws ≠ "LOW" := by
  unfold riskLevelOf
  by_cases h1 : fs.length > 0
  · simp [h1]
  · simp [h1, List.length_pos.mpr h]

/-- C10: the reputation builder sets a channel's hasAgeRestriction flag if
and only if at least one of the channel's videos carries a non-empty
contentRating object (any rating at all, including a SAFE MPAA "G"), and a
profile with that flag set always contributes a warning-tier
CHANNEL_HAS_RESTRICTED_CONTENT signal to every video classified against it,
so such a video is never classified LOW. -/
theorem channel_age_restriction_invariant (vds : List (String × Video))
    (c : String) (v : Video) (bl : Blocklist) :
    (optHasAge (buildChannelProfiles vds) c
      = vds.any (fun e => e.2.channelId == c && crNonEmpty e.2.contentRating)) ∧
    (∀ p : ChannelProfile, p.hasAgeRestriction = true →
      ({ flagType := "warnings", type := "CHANNEL_HAS_RESTRICTED_CONTENT",
         severity := "MEDIUM", message := "Channel has age-restricted content" }
          : Signal) ∈ (classifyVideo v bl (some p)).warnings ∧
      (classifyVideo v bl (some p)).riskLevel ≠ "LOW") := by
  constructor
  · show optHasAge (vds.foldl bcpStep []) c = _
    rw [optHasAge_foldl]
    rfl
  · intro p hp
    refine ⟨by rw [classifyVideo_warnings]; exact mem_classifyWarnings_channel v p hp, ?_⟩
    rw [classify_riskLevel_eq, classifyVideo_warnings]
    exact riskLevelOf_ne_low
      (List.ne_nil_of_mem (mem_classifyWarnings_channel v p hp))

/-- C10 witness: a single-video channel whose only video carries the SAFE
MPAA "G" rating gets the flag, and classifying any video against the
resulting profile yields the channel warning and a non-LOW risk level. -/
theorem channel_age_restriction_invariant_witness :
    (optHasAge (buildChannelProfiles [("v1", vRatedG)]) "c1"
      = [("v1", vRatedG)].any (fun e => e.2.channelId == "c1" && crNonEmpty e.2.contentRating)) ∧
    pRestricted.hasAgeRestriction = true ∧
    optHasAge (buildChannelProfiles [("v1", vRatedG)]) "c1" = true ∧
    (({ flagType := "warnings", type := "CHANNEL_HAS_RESTRICTED_CONTENT",
        severity := "MEDIUM", message := "Channel has age-restricted content" }
         : Signal) ∈ (classifyVideo baseVideo emptyBlocklist (some pRestricted)).warnings ∧
     (classifyVideo baseVideo emptyBlocklist (some pRestricted)).riskLevel ≠ "LOW") :=
  ⟨(channel_age_restriction_invariant [("v1", vRatedG)] "c1" baseVideo emptyBlocklist).1,
   by decide, by decide,
   (channel_age_restriction_invariant [("v1", vRatedG)] "c1" baseVideo emptyBlocklist).2
     pRestricted (by decide)⟩

/-- C7 counterexample: a transcript of 9999 ASCII units followed by the
surrogate pair (55357, 56832) — the emoji U+1F600 — exceeds the cap, and the
truncated text's final code unit is the unpaired high surrogate 55357: the
blind code-unit cut does split a surrogate pair. -/
theorem truncation_splits_surrogate_pair :
    (List.replicate 9999 97 ++ [55357, 56832]).length > 10000 ∧
    isHighSurrogate 55357 = true ∧
    isLowSurrogate 56832 = true ∧
    (truncateTranscript (List.replicate 9999 97 ++ [55357, 56832])).getLast?
      = some 55357 := by
  refine ⟨by
    simp only [List.length_append, List.length_replicate, List.length_cons,
      List.length_nil]
    omega, rfl, rfl, ?_⟩
  unfold truncateTranscript
  rw [List.take_append_eq_append_take,
    List.take_of_length_le (by simp only [List.length_replicate]; omega),
    List.length_replicate]
  show (List.replicate 9999 97 ++ [55357]).getLast? = some 55357
  exact List.getLast?_concat _

/-- C7 amended: the transcript text handed to the AI oracle is capped at
10000 UTF-16 code units — the truncation keeps exactly the first
min(10000, length) code units verbatim — but the cut is blind to surrogate
pairs, so (per the counterexample) the final unit of a truncated transcript
can be an unpaired high surrogate. -/
theorem truncate_caps_at_budget (t : List Nat) :
    (truncateTranscript t).length = min 10000 t.length ∧
    truncateTranscript t ++ t.drop 10000 = t := by
  exact ⟨List.length_take 10000 t, List.take_append_drop 10000 t⟩

/-- Helper: a cache hit survives appending further entries. -/
theorem lookupCache_append_some {cache : List (String × EnrichedInfo)}
    {cid : String} {i : EnrichedInfo} (h : lookupCache cache cid = some i)
    (l2 : List (String × EnrichedInfo)) :
    lookupCache (cache ++ l2) cid = some i := by
  induction cache with
  | nil => cases h
  | cons hd tl ih =>
    by_cases hh : hd.1 = cid
    · simp [lookupCache, hh] at h ⊢
      exact h
    · simp [lookupCache, hh] at h ⊢
      exact ih h

/-- Helper: the enrichment loop never writes to disk. -/
theorem enrichLoop_no_write (f : String → Option EnrichedInfo) :
    ∀ (chs : List String) (cache : List (String × EnrichedInfo)) (fetched : Nat),
      ∀ ev ∈ (enrichLoop f chs cache fetched).2.2, isWrite ev = false := by
  intro chs
  induction chs with
  | nil => intro cache fetched ev hev; cases hev
  | cons cid rest ih =>
    intro cache fetched ev hev
    unfold enrichLoop at hev
    rcases hl : lookupCache cache cid with _ | i <;> rw [hl] at hev
    · rcases hf : f cid with _ | info <;> rw [hf] at hev <;>
        rcases List.mem_cons.mp hev with rfl | hev2
      · rfl
      · exact ih _ _ ev hev2
      · rfl
      · exact ih _ _ ev hev2
    · exact ih _ _ ev hev

/-- Helper: a channel absent from the remaining id list is never fetched. -/
theorem countFetch_loop_not_mem (f : String → Option EnrichedInfo) :
    ∀ (chs : List String) (cache : List (String × EnrichedInfo)) (fetched : Nat)
      (cid : String), cid ∉ chs →
      countFetch (enrichLoop f chs cache fetched).2.2 cid = 0 := by
  intro chs
  induction chs with
  | nil => intro cache fetched cid _; rfl
  | cons c rest ih =>
    intro cache fetched cid hnm
    have hcne : ¬ c = cid := fun h => hnm (h ▸ List.mem_cons_self c rest)
    have hrest : cid ∉ rest := fun h => hnm (List.mem_cons.mpr (Or.inr h))
    unfold enrichLoop
    rcases hl : lookupCache cache c with _ | j
    · simp only [hl]
      rcases hf : f c with _ | info <;> simp only [hf] <;>
        simp only [countFetch, List.countP_cons, isFetchOf] <;>
        rw [if_neg (by simp [hcne]), Nat.add_zero]
      · simpa [countFetch] using ih cache fetched cid hrest
      · simpa [countFetch] using ih (cache ++ [(c, info)]) (fetched + 1) cid hrest
    · simp only [hl]
      exact ih cache fetched cid hrest

/-- Helper: a channel already present in the in-memory cache is never fetched
by the loop (the cache only grows, so a hit stays a hit). -/
theorem countFetch_loop_cached (f : String → Option EnrichedInfo) :
    ∀ (chs : List String) (cache : List (String × EnrichedInfo)) (fetched : Nat)
      (cid : String) (i : EnrichedInfo), lookupCache cache cid = some i →
      countFetch (enrichLoop f chs cache fetched).2.2 cid = 0 := by
  intro chs
  induction chs with
  | nil => intro cache fetched cid i _; rfl
  | cons c rest ih =>
    intro cache fetched cid i hc
    unfold enrichLoop
    rcases hl : lookupCache cache c with _ | j
    · have hcne : ¬ c = cid := by
        intro h; rw [h, hc] at hl; cases hl
      simp only [hl]
      rcases hf : f c with _ | info <;> simp only [hf] <;>
        simp only [countFetch, List.countP_cons, isFetchOf] <;>
        rw [if_neg (by simp [hcne]), Nat.add_zero]
      · simpa [countFetch] using ih cache fetched cid i hc
      · simpa [countFetch] using ih (cache ++ [(c, info)]) (fetched + 1) cid i
          (lookupCache_append_some hc _)
    · simp only [hl]
      exact ih cache fetched cid i hc

/-- Helper: with pairwise distinct channel ids, the loop fetches each channel
at most once. -/
theorem countFetch_loop_nodup (f : String → Option EnrichedInfo) :
    ∀ (chs : List String) (cache : List (String × EnrichedInfo)) (fetched : Nat)
      (cid : String), chs.Nodup →
      countFetch (enrichLoop f chs cache fetched).2.2 cid ≤ 1 := by
  intro chs
  induction chs with
  | nil => intro cache fetched cid _; exact Nat.zero_le 1
  | cons c rest ih =>
    intro cache fetched cid hnd
    obtain ⟨hcout, hrest⟩ := List.nodup_cons.mp hnd
    unfold enrichLoop
    rcases hl : lookupCache cache c with _ | j
    · simp only [hl]
      rcases hf : f c with _ | info <;> simp only [hf]
      · by_cases hceq : c = cid
        · subst hceq
          have h0 := countFetch_loop_not_mem f rest cache fetched c hcout
          simp only [countFetch, List.countP_cons, isFetchOf] at h0 ⊢
          rw [if_pos (by simp)]
          omega
        · simp only [countFetch, List.countP_cons, isFetchOf]
          rw [if_neg (by simp [hceq]), Nat.add_zero]
          simpa [countFetch] using ih cache fetched cid hrest
      · by_cases hceq : c = cid
        · subst hceq
          have h0 := countFetch_loop_not_mem f rest (cache ++ [(c, info)])
            (fetched + 1) c hcout
          simp only [countFetch, List.countP_cons, isFetchOf] at h0 ⊢
          rw [if_pos (by simp)]
          omega
        · simp only [countFetch, List.countP_cons, isFetchOf]
          rw [if_neg (by simp [hceq]), Nat.add_zero]
          simpa [countFetch] using ih (cache ++ [(c, info)]) (fetched + 1) cid hrest
    · simp only [hl]
      exact ih cache fetched cid hrest

/-- C8 counterexample: with two uncached channels and a fetch that always
succeeds, the run's observable trace is fetch, fetch, write — the first
fetched result is NOT persisted before the second fetch is issued; the single
disk write happens only after the loop, so a crash mid-run loses every fetch
of the run, not just the in-flight one. -/
theorem enrichment_not_persisted_per_fetch :
    enrichTrace (fun _ => some defaultInfo) [] ["ch1", "ch2"]
      = [FetchEvent.fetch "ch1", FetchEvent.fetch "ch2", FetchEvent.writeDisk] ∧
    persistedBetweenFetches
      (enrichTrace (fun _ => some defaultInfo) [] ["ch1", "ch2"]) = false := by
  refine ⟨rfl, rfl⟩

/-- C8 amended: during channel enrichment each channel is fetched at most
once per run (given the pairwise-distinct channel ids of a JS object's keys),
channels already in the on-disk cache are never re-fetched, and the cache is
written to disk in at most one write which can only be the final event of the
run — fetched results are NOT persisted before the next fetch, so a crash
mid-run loses every fetch of that run. -/
theorem enrich_fetch_once_single_final_write (f : String → Option EnrichedInfo)
    (initCache : List (String × EnrichedInfo)) (channels : List String)
    (cid : String) (hnd : channels.Nodup) :
    countFetch (enrichTrace f initCache channels) cid ≤ 1 ∧
    ((lookupCache initCache cid).isSome = true →
      countFetch (enrichTrace f initCache channels) cid = 0) ∧
    (enrichTrace f initCache channels).countP isWrite ≤ 1 ∧
    (∀ ev ∈ (enrichTrace f initCache channels).dropLast, isWrite ev = false) := by
  have hnw := enrichLoop_no_write f channels initCache 0
  have htail : List.countP (isFetchOf cid)
      (if (enrichLoop f channels initCache 0).2.1 > 0 then
        [FetchEvent.writeDisk] else []) = 0 := by
    split <;> rfl
  refine ⟨?_, ?_, ?_, ?_⟩
  · unfold enrichTrace countFetch
    rw [List.countP_append, htail, Nat.add_zero]
    simpa [countFetch] using countFetch_loop_nodup f channels initCache 0 cid hnd
  · intro hsome
    obtain ⟨i, hi⟩ := Option.isSome_iff_exists.mp hsome
    unfold enrichTrace countFetch
    rw [List.countP_append, htail, Nat.add_zero]
    simpa [countFetch] using countFetch_loop_cached f channels initCache 0 cid i hi
  · unfold enrichTrace
    rw [List.countP_append]
    have h1 : List.countP isWrite (enrichLoop f channels initCache 0).2.2 = 0 := by
      refine List.countP_eq_zero.mpr ?_
      intro a ha
      simp [hnw a ha]
    rw [h1, Nat.zero_add]
    split
    · rw [List.countP_cons]
      rfl
    · exact Nat.zero_le 1
  · intro ev hev
    unfold enrichTrace at hev
    by_cases hf : (enrichLoop f channels initCache 0).2.1 > 0
    · rw [if_pos hf, List.dropLast_concat] at hev
      exact hnw ev hev
    · rw [if_neg hf, List.append_nil] at hev
      exact hnw ev ((List.dropLast_sublist _).mem hev)

/-- C8 witness: the amended theorem applied to a concrete two-channel run
with an empty initial cache. -/
theorem enrich_fetch_once_single_final_write_witness :
    countFetch (enrichTrace (fun _ => some defaultInfo) [] ["ch1", "ch2"]) "ch1" ≤ 1 ∧
    ((lookupCache [] "ch1").isSome = true →
      countFetch (enrichTrace (fun _ => some defaultInfo) [] ["ch1", "ch2"]) "ch1" = 0) ∧
    (enrichTrace (fun _ => some defaultInfo) [] ["ch1", "ch2"]).countP isWrite ≤ 1 ∧
    (∀ ev ∈ (enrichTrace (fun _ => some defaultInfo) [] ["ch1", "ch2"]).dropLast,
      isWrite ev = false) :=
  enrich_fetch_once_single_final_write (fun _ => some defaultInfo) [] ["ch1", "ch2"]
    "ch1" (by decide)

/-- Helper: the video-tag join fold only appends rows for the processed video
id, so rows of any other video id are untouched. -/
theorem filterVid_tagFold (w vid : String) (hne : (w == vid) = false) :
    ∀ (ids : List Nat) (acc : List (String × Nat)),
      ((ids.foldl (fun acc tagId =>
          if acc.contains (w, tagId) then acc else acc ++ [(w, tagId)]) acc).filter
            (fun p => p.1 == vid))
        = acc.filter (fun p => p.1 == vid) := by
  intro ids
  induction ids with
  | nil => intro acc; rfl
  | cons i rest ih =>
    intro acc
    rw [List.foldl_cons, ih]
    by_cases hc : acc.contains (w, i)
    · rw [if_pos hc]
    · rw [if_neg hc, List.filter_append]
      simp [hne]

/-- Helper: storing tags leaves the verdict table untouched. -/
theorem storeTags_aiAnalysis (db : AiDb) (w : String) (ts : List String) :
    (storeTags db w ts).aiAnalysis = db.aiAnalysis := rfl

/-- Helper: storing tags for one video leaves the join rows of any other
video untouched. -/
theorem storeTags_videoTags_filter (db : AiDb) (w vid : String)
    (ts : List String) (hne : (w == vid) = false) :
    (storeTags db w ts).videoTags.filter (fun p => p.1 == vid)
      = db.videoTags.filter (fun p => p.1 == vid) := by
  unfold storeTags
  exact filterVid_tagFold w vid hne _ db.videoTags

/-- Helper: when the oracle deterministically fails on the failing video's
transcript, no step of the batch — not even the steps of other videos — adds
a verdict row or a join row for that video. -/
theorem analyzeStep_filter_preserved (transcriptOf : String → Option String)
    (oracle : String → Except String Verdict) (vid t e : String)
    (ht : transcriptOf vid = some t) (he : oracle t = Except.error e)
    (db0 : AiDb) (res : BatchResults) (w : Video) :
    ((analyzeStep transcriptOf oracle (db0, res) w).1).aiAnalysis.filter
        (fun a => a.videoId == vid)
      = db0.aiAnalysis.filter (fun a => a.videoId == vid) ∧
    ((analyzeStep transcriptOf oracle (db0, res) w).1).videoTags.filter
        (fun p => p.1 == vid)
      = db0.videoTags.filter (fun p => p.1 == vid) := by
  unfold analyzeStep analyzeVideo
  rcases htr : transcriptOf w.id with _ | tr
  · simp [htr]
  · rcases hor : oracle tr with e2 | res2
    · simp [htr, hor]
    · simp only [htr, hor]
      have hwne : (w.id == vid) = false := by
        refine beq_eq_false_iff_ne.mpr ?_
        intro hw
        rw [hw, ht] at htr
        injection htr with htt
        rw [← htt, he] at hor
        cases hor
      constructor
      · rw [List.filter_append, storeTags_aiAnalysis]
        simp [hwne]
      · exact storeTags_videoTags_filter db0 w.id vid res2.tags hwne

/-- Helper: the per-video preservation extended over the whole batch fold. -/
theorem analyzeFold_filter_preserved (transcriptOf : String → Option String)
    (oracle : String → Except String Verdict) (vid t e : String)
    (ht : transcriptOf vid = some t) (he : oracle t = Except.error e) :
    ∀ (vs : List Video) (db0 : AiDb) (res : BatchResults),
      ((vs.foldl (analyzeStep transcriptOf oracle) (db0, res)).1).aiAnalysis.filter
          (fun a => a.videoId == vid)
        = db0.aiAnalysis.filter (fun a => a.videoId == vid) ∧
      ((vs.foldl (analyzeStep transcriptOf oracle) (db0, res)).1).videoTags.filter
          (fun p => p.1 == vid)
        = db0.videoTags.filter (fun p => p.1 == vid) := by
  intro vs
  induction vs with
  | nil => intro db0 res; exact ⟨rfl, rfl⟩
  | cons w rest ih =>
    intro db0 res
    rw [List.foldl_cons]
    have hstep := analyzeStep_filter_preserved transcriptOf oracle vid t e ht he
      db0 res w
    have hrec := ih (analyzeStep transcriptOf oracle (db0, res) w).1
      (analyzeStep transcriptOf oracle (db0, res) w).2
    rw [Prod.mk.eta] at hrec
    exact ⟨hrec.1.trans hstep.1, hrec.2.trans hstep.2⟩

/-- Helper: the batch fold only ever appends to the error list. -/
theorem analyzeFold_errors_mono (transcriptOf : String → Option String)
    (oracle : String → Except String Verdict) :
    ∀ (vs : List Video) (db0 : AiDb) (res : BatchResults),
      ∃ tail, ((vs.foldl (analyzeStep transcriptOf oracle) (db0, res)).2).errors
        = res.errors ++ tail := by
  intro vs
  induction vs with
  | nil => intro db0 res; exact ⟨[], (List.append_nil _).symm⟩
  | cons w rest ih =>
    intro db0 res
    rw [List.foldl_cons]
    have hstep : ∃ mid, (analyzeStep transcriptOf oracle (db0, res) w).2.errors
        = res.errors ++ mid := by
      unfold analyzeStep
      rcases hr : (analyzeVideo w.id transcriptOf oracle db0).1 with e2 | r2
      · simp only [hr]
        exact ⟨[(w.id, e2)], rfl⟩
      · simp only [hr]
        exact ⟨[], (List.append_nil _).symm⟩
    obtain ⟨mid, hmid⟩ := hstep
    obtain ⟨tail, htail⟩ := ih (analyzeStep transcriptOf oracle (db0, res) w).1
      (analyzeStep transcriptOf oracle (db0, res) w).2
    rw [Prod.mk.eta] at htail
    exact ⟨mid ++ tail, by rw [htail, hmid, List.append_assoc]⟩

/-- Helper: the failing video's error lands in the final error list. -/
theorem analyzeFold_error_mem (transcriptOf : String → Option String)
    (oracle : String → Except String Verdict) (vid t e : String)
    (ht : transcriptOf vid = some t) (he : oracle t = Except.error e) :
    ∀ (vs : List Video) (db0 : AiDb) (res : BatchResults),
      vid ∈ vs.map (fun v => v.id) →
      (vid, e) ∈ ((vs.foldl (analyzeStep transcriptOf oracle) (db0, res)).2).errors := by
  intro vs
  induction vs with
  | nil => intro db0 res h; cases h
  | cons w rest ih =>
    intro db0 res hmem
    rw [List.foldl_cons]
    rw [List.map_cons] at hmem
    rcases List.mem_cons.mp hmem with hw | hrest
    · subst hw
      have hsteperr : (analyzeStep transcriptOf oracle (db0, res) w).2.errors
          = res.errors ++ [(w.id, e)] := by
        unfold analyzeStep analyzeVideo
        simp only [ht, he]
      obtain ⟨tail, htail⟩ := analyzeFold_errors_mono transcriptOf oracle rest
        (analyzeStep transcriptOf oracle (db0, res) w).1
        (analyzeStep transcriptOf oracle (db0, res) w).2
      rw [Prod.mk.eta] at htail
      rw [htail, hsteperr]
      exact List.mem_append_left _
        (List.mem_append_right _ (List.mem_singleton.mpr rfl))
    · have := ih (analyzeStep transcriptOf oracle (db0, res) w).1
        (analyzeStep transcriptOf oracle (db0, res) w).2 hrest
      rw [Prod.mk.eta] at this
      exact this

/-- Helper: every batch iteration bumps exactly one of the two counters, so
the batch processes every selected video — no failure aborts the loop. -/
theorem analyzeFold_count (transcriptOf : String → Option String)
    (oracle : String → Except String Verdict) :
    ∀ (vs : List Video) (db0 : AiDb) (res : BatchResults),
      ((vs.foldl (analyzeStep transcriptOf oracle) (db0, res)).2).analyzed
        + ((vs.foldl (analyzeStep transcriptOf oracle) (db0, res)).2).failed
      = res.analyzed + res.failed + vs.length := by
  intro vs
  induction vs with
  | nil => intro db0 res; rfl
  | cons w rest ih =>
    intro db0 res
    rw [List.foldl_cons]
    have hstep : (analyzeStep transcriptOf oracle (db0, res) w).2.analyzed
        + (analyzeStep transcriptOf oracle (db0, res) w).2.failed
        = res.analyzed + res.failed + 1 := by
      unfold analyzeStep
      rcases hr : (analyzeVideo w.id transcriptOf oracle db0).1 with e2 | r2 <;>
        simp only [hr] <;> omega
    have := ih (analyzeStep transcriptOf oracle (db0, res) w).1
      (analyzeStep transcriptOf oracle (db0, res) w).2
    rw [Prod.mk.eta] at this
    rw [this, hstep, List.length_cons]
    omega

/-- Helper: a video selected for analysis has no verdict row yet (the
selection filters out already-analyzed ids). -/
theorem no_prior_record_of_selected (limit : Option Nat)
    (captions : String → Bool) (db : AiDb) (vid : String)
    (hvid : vid ∈ (videosToAnalyze limit captions db).map (fun v => v.id)) :
    db.aiAnalysis.filter (fun a => a.videoId == vid) = [] := by
  obtain ⟨v, hv, hvid2⟩ := List.mem_map.mp hvid
  have hvmem : v ∈ eligibleVideos captions db := by
    rcases limit with _ | n
    · exact hv
    · by_cases hn : (n == 0) = true
      · simp only [videosToAnalyze] at hv
        rw [if_pos hn] at hv
        exact hv
      · simp only [videosToAnalyze] at hv
        rw [if_neg hn] at hv
        exact List.mem_of_mem_take hv
  have hpred := (List.mem_filter.mp hvmem).2
  have hcont : ((db.aiAnalysis.map (fun a => a.videoId)).contains v.id) = false := by
    rcases hb : (db.aiAnalysis.map (fun a => a.videoId)).contains v.id
    · exact hb
    · exfalso
      rw [hb] at hpred
      simp at hpred
  refine List.filter_eq_nil_iff.mpr ?_
  intro a ha hbeq
  have haeq : a.videoId = vid := by simpa using hbeq
  have hmemids : v.id ∈ db.aiAnalysis.map (fun a => a.videoId) :=
    List.mem_map.mpr ⟨a, ha, by rw [haeq, hvid2]⟩
  have := List.elem_iff.mpr hmemids
  rw [show (db.aiAnalysis.map (fun a => a.videoId)).elem v.id
      = (db.aiAnalysis.map (fun a => a.videoId)).contains v.id from rfl, hcont] at this
  cases this

/-- C9: if the AI oracle call fails (or its output is unparseable — both
surface as the injected oracle returning an error) for a video selected for
batch AI analysis, then after the whole batch no AIVerdict row exists for
that video and its video-tag join rows are exactly what they were before
(atomic per video, no partial verdict), the failure is recorded as a
per-video (videoId, error) entry in the returned results, and every selected
video is still counted as analyzed or failed — the batch never aborts. -/
theorem ai_failure_atomic_per_video (limit : Option Nat)
    (captions : String → Bool) (transcriptOf : String → Option String)
    (oracle : String → Except String Verdict) (db : AiDb) (vid t e : String)
    (hvid : vid ∈ (videosToAnalyze limit captions db).map (fun v => v.id))
    (ht : transcriptOf vid = some t) (he : oracle t = Except.error e) :
    ((analyzeAllVideos limit captions transcriptOf oracle db).1).aiAnalysis.filter
        (fun a => a.videoId == vid) = [] ∧
    ((analyzeAllVideos limit captions transcriptOf oracle db).1).videoTags.filter
        (fun p => p.1 == vid)
      = db.videoTags.filter (fun p => p.1 == vid) ∧
    (vid, e) ∈ ((analyzeAllVideos limit captions transcriptOf oracle db).2).errors ∧
    ((analyzeAllVideos limit captions transcriptOf oracle db).2).analyzed
        + ((analyzeAllVideos limit captions transcriptOf oracle db).2).failed
      = (videosToAnalyze limit captions db).length := by
  have hun : analyzeAllVideos limit captions transcriptOf oracle db
      = (videosToAnalyze limit captions db).foldl (analyzeStep transcriptOf oracle)
        (db, { analyzed := 0, failed := 0,
               skipped := db.videos.length - (videosToAnalyze limit captions db).length,
               errors := [] }) := rfl
  rw [hun]
  have hfold := analyzeFold_filter_preserved transcriptOf oracle vid t e ht he
    (videosToAnalyze limit captions db) db
    { analyzed := 0, failed := 0,
      skipped := db.videos.length - (videosToAnalyze limit captions db).length,
      errors := [] }
  refine ⟨hfold.1.trans (no_prior_record_of_selected limit captions db vid hvid),
    hfold.2, ?_, ?_⟩
  · exact analyzeFold_error_mem transcriptOf oracle vid t e ht he
      (videosToAnalyze limit captions db) db _ hvid
  · rw [analyzeFold_count]
    simp

/-- C9 witness: a two-video batch in which the oracle fails on the first
video's transcript and succeeds on the second: the failed video ends with no
verdict row and an error entry, and both videos are counted. -/
theorem ai_failure_atomic_per_video_witness :
    ((analyzeAllVideos none (fun _ => true)
        (fun v => some ("tr-" ++ v))
        (fun tr => if tr == "tr-vLow" then Except.error "boom"
          else Except.ok ⟨"ok", ["gaming"], "LOW", "fine"⟩)
        { videos := [vPlain, vBlocked], aiAnalysis := [], tagNames := [],
          videoTags := [] }).1).aiAnalysis.filter
        (fun a => a.videoId == "vLow") = [] ∧
    ((analyzeAllVideos none (fun _ => true)
        (fun v => some ("tr-" ++ v))
        (fun tr => if tr == "tr-vLow" then Except.error "boom"
          else Except.ok ⟨"ok", ["gaming"], "LOW", "fine"⟩)
        { videos := [vPlain, vBlocked], aiAnalysis := [], tagNames := [],
          videoTags := [] }).1).videoTags.filter (fun p => p.1 == "vLow")
      = ({ videos := [vPlain, vBlocked], aiAnalysis := [], tagNames := [],
           videoTags := [] } : AiDb).videoTags.filter (fun p => p.1 == "vLow") ∧
    ("vLow", "boom") ∈ ((analyzeAllVideos none (fun _ => true)
        (fun v => some ("tr-" ++ v))
        (fun tr => if tr == "tr-vLow" then Except.error "boom"
          else Except.ok ⟨"ok", ["gaming"], "LOW", "fine"⟩)
        { videos := [vPlain, vBlocked], aiAnalysis := [], tagNames := [],
          videoTags := [] }).2).errors ∧
    ((analyzeAllVideos none (fun _ => true)
        (fun v => some ("tr-" ++ v))
        (fun tr => if tr == "tr-vLow" then Except.error "boom"
          else Except.ok ⟨"ok", ["gaming"], "LOW", "fine"⟩)
        { videos := [vPlain, vBlocked], aiAnalysis := [], tagNames := [],
          videoTags := [] }).2).analyzed
      + ((analyzeAllVideos none (fun _ => true)
        (fun v => some ("tr-" ++ v))
        (fun tr => if tr == "tr-vLow" then Except.error "boom"
          else Except.ok ⟨"ok", ["gaming"], "LOW", "fine"⟩)
        { videos := [vPlain, vBlocked], aiAnalysis := [], tagNames := [],
          videoTags := [] }).2).failed
      = (videosToAnalyze none (fun _ => true)
          { videos := [vPlain, vBlocked], aiAnalysis := [], tagNames := [],
            videoTags := [] }).length :=
  ai_failure_atomic_per_video none (fun _ => true)
    (fun v => some ("tr-" ++ v))
    (fun tr => if tr == "tr-vLow" then Except.error "boom"
      else Except.ok ⟨"ok", ["gaming"], "LOW", "fine"⟩)
    { videos := [vPlain, vBlocked], aiAnalysis := [], tagNames := [],
      videoTags := [] }
    "vLow" "tr-vLow" "boom" (by decide) (by rfl) (by rfl)
